import Mathlib

/-!
# Settings Persistence Engine — verification development

Shallow embedding of the persistence subsystem of `src/script.js`
(the canonical `NavigationModel` class and its storage-adapter layer),
together with proofs of the specified properties.

JavaScript values are modelled by the inductive type `JSVal`:
numbers are rationals plus an explicit `nan` (the only non-finite value
that the modelled code paths can produce), objects and arrays carry
association lists of named properties in insertion order, and arrays
additionally carry their element list.
-/

set_option maxRecDepth 100000

namespace NavHome

/-- Model of a JavaScript value as manipulated by the settings engine.
Arrays carry both named (non-index) properties and the element list,
since the repair code may set named properties on array-typed fields. -/
inductive JSVal where
  | undef : JSVal
  | null : JSVal
  | bool : Bool → JSVal
  | num : Rat → JSVal
  | nan : JSVal
  | str : String → JSVal
  | arr : List (String × JSVal) → List JSVal → JSVal
  | obj : List (String × JSVal) → JSVal
deriving Repr

-- Structural (Boolean) equality on JSVal, element- and field-wise.
mutual

def beqVal : JSVal → JSVal → Bool
  | .undef, .undef => true
  | .null, .null => true
  | .bool a, .bool b => a = b
  | .num a, .num b => a = b
  | .nan, .nan => true
  | .str a, .str b => a = b
  | .arr ps xs, .arr qs ys => beqFields ps qs && beqElems xs ys
  | .obj fs, .obj gs => beqFields fs gs
  | _, _ => false
  termination_by structural a => a

def beqElems : List JSVal → List JSVal → Bool
  | [], [] => true
  | x :: xs, y :: ys => beqVal x y && beqElems xs ys
  | _, _ => false
  termination_by structural a => a

def beqFields : List (String × JSVal) → List (String × JSVal) → Bool
  | [], [] => true
  | (k, v) :: fs, (l, w) :: gs => k = l && beqVal v w && beqFields fs gs
  | _, _ => false
  termination_by structural a => a

end

mutual

def beqVal_sound : ∀ a b, beqVal a b = true → a = b
  | .undef, .undef, _ => rfl
  | .null, .null, _ => rfl
  | .bool _, .bool _, h => by
    simpa [beqVal] using congrArg JSVal.bool (by simpa [beqVal] using h)
  | .num _, .num _, h => by
    simpa [beqVal] using congrArg JSVal.num (by simpa [beqVal] using h)
  | .nan, .nan, _ => rfl
  | .str _, .str _, h => by
    simpa [beqVal] using congrArg JSVal.str (by simpa [beqVal] using h)
  | .arr ps xs, .arr qs ys, h => by
    simp only [beqVal, Bool.and_eq_true] at h
    rw [beqFields_sound ps qs h.1, beqElems_sound xs ys h.2]
  | .obj fs, .obj gs, h => by
    simp only [beqVal] at h
    rw [beqFields_sound fs gs h]

def beqElems_sound : ∀ a b, beqElems a b = true → a = b
  | [], [], _ => rfl
  | x :: xs, y :: ys, h => by
    simp only [beqElems, Bool.and_eq_true] at h
    rw [beqVal_sound x y h.1, beqElems_sound xs ys h.2]

def beqFields_sound : ∀ a b, beqFields a b = true → a = b
  | [], [], _ => rfl
  | (k, v) :: fs, (l, w) :: gs, h => by
    simp only [beqFields, Bool.and_eq_true, decide_eq_true_eq] at h
    rw [h.1.1, beqVal_sound v w h.1.2, beqFields_sound fs gs h.2]

end

mutual

def beqVal_refl : ∀ a, beqVal a a = true
  | .undef => rfl
  | .null => rfl
  | .bool _ => by simp [beqVal]
  | .num _ => by simp [beqVal]
  | .nan => rfl
  | .str _ => by simp [beqVal]
  | .arr ps xs => by simp [beqVal, beqFields_refl ps, beqElems_refl xs]
  | .obj fs => by simp [beqVal, beqFields_refl fs]

def beqElems_refl : ∀ a, beqElems a a = true
  | [] => rfl
  | x :: xs => by simp [beqElems, beqVal_refl x, beqElems_refl xs]

def beqFields_refl : ∀ a, beqFields a a = true
  | [] => rfl
  | (k, v) :: fs => by simp [beqFields, beqVal_refl v, beqFields_refl fs]

end

instance : DecidableEq JSVal := fun a b =>
  decidable_of_iff (beqVal a b = true)
    ⟨beqVal_sound a b, fun h => h ▸ beqVal_refl a⟩

namespace JSVal

/-- `typeof v` as in JavaScript (`typeof null` is `"object"`). -/
def jsTypeof : JSVal → String
  | .undef => "undefined"
  | .null => "object"
  | .bool _ => "boolean"
  | .num _ => "number"
  | .nan => "number"
  | .str _ => "string"
  | .arr _ _ => "object"
  | .obj _ => "object"

/-- JavaScript truthiness. `NaN`, `""`, `0`, `null`, `undefined` are falsy. -/
def truthy : JSVal → Bool
  | .undef => false
  | .null => false
  | .bool b => b
  | .num q => q ≠ 0
  | .nan => false
  | .str s => s ≠ ""
  | .arr _ _ => true
  | .obj _ => true

/-- `typeof v === 'string'`. -/
def isStr : JSVal → Bool
  | .str _ => true
  | _ => false

/-- `typeof v === 'number'` (`NaN` is a number). -/
def isNum : JSVal → Bool
  | .num _ => true
  | .nan => true
  | _ => false

/-- `Array.isArray(v)`. -/
def isArr : JSVal → Bool
  | .arr _ _ => true
  | _ => false

/-- `v` is a truthy value of `typeof` `"object"`: a plain object or an array
(`null` is falsy, hence excluded). -/
def isObjLike : JSVal → Bool
  | .arr _ _ => true
  | .obj _ => true
  | _ => false

end JSVal

/-- First binding of key `k` in an association list of properties. -/
def lookupField : List (String × JSVal) → String → Option JSVal
  | [], _ => none
  | (k', v) :: fs, k => if k' = k then some v else lookupField fs k

/-- Property assignment on an association list: replaces the first binding of
`k` in place (JavaScript keeps the original insertion position of an existing
key) and appends a new binding otherwise. -/
def setPairs : List (String × JSVal) → String → JSVal → List (String × JSVal)
  | [], k, v => [(k, v)]
  | (k', v') :: fs, k, v =>
    if k' = k then (k, v) :: fs else (k', v') :: setPairs fs k v

/-- Property read `v[k]` (absent property reads as `undefined`; property reads
on primitives also yield `undefined` — the modelled code never reads a
property off `null`/`undefined`, which would throw). -/
def getField : JSVal → String → JSVal
  | .obj fs, k => (lookupField fs k).getD .undef
  | .arr ps _, k => (lookupField ps k).getD .undef
  | _, _ => (.undef)

/-- Property write `v[k] = x` (a no-op on primitives; the modelled code only
assigns properties of objects and arrays). -/
def setField : JSVal → String → JSVal → JSVal
  | .obj fs, k, x => .obj (setPairs fs k x)
  | .arr ps xs, k, x => .arr (setPairs ps k x) xs
  | v, _, _ => v

/-- Element list of an array value (`[]` for non-arrays). -/
def elemsOf : JSVal → List JSVal
  | .arr _ xs => xs
  | _ => []

/-- `Array.prototype.push` on an array-valued field (identity on non-arrays;
the modelled call sites guarantee an array, JavaScript would throw there). -/
def pushElem : JSVal → JSVal → JSVal
  | .arr ps xs, x => .arr ps (xs ++ [x])
  | v, _ => v

/-- JavaScript strict equality `===` for the comparisons the engine performs:
structural on primitives except `NaN === NaN` being false.  Comparisons where
both sides are objects/arrays use reference identity, which a value model
cannot represent; the engine only ever compares ids and checksums, where at
least one side is a primitive, so those cases return `false` exactly as
`===` does on operands of different types. -/
def jsStrictEq : JSVal → JSVal → Bool
  | .undef, .undef => true
  | .null, .null => true
  | .bool a, .bool b => a = b
  | .num a, .num b => a = b
  | .str a, .str b => a = b
  | _, _ => false

/-- `ToNumber` coercion as used by `Math.max` over item ids.  Numeric-string
parsing is not modelled (the theorems constrain the coerced values to be
numbers); `none` stands for `NaN`. -/
def jsToNumber : JSVal → Option Rat
  | .num q => some q
  | .nan => none
  | .undef => none
  | .null => some 0
  | .bool b => some (if b then 1 else 0)
  | .str _ => none
  | .arr _ _ => none
  | .obj _ => none

/-- One step of `Math.max`: `NaN` (here `none`) is absorbing. -/
def jsMaxStep (acc : Option Rat) (v : JSVal) : Option Rat :=
  match acc, jsToNumber v with
  | some a, some b => some (if a < b then b else a)
  | _, _ => none

/-- `Math.max(...vs, 0)`. -/
def jsMaxWithZero (vs : List JSVal) : Option Rat :=
  vs.foldl jsMaxStep (some 0)

/-- Own enumerable properties contributed by `...v` in an object literal
spread: the named fields of an object, index-keyed elements then named
properties for an array, nothing for primitives (string index properties are
not modelled; the engine only ever spreads plain objects). -/
def spreadProps : JSVal → List (String × JSVal)
  | .obj fs => fs
  | .arr ps xs => (xs.enum.map fun p => (toString p.1, p.2)) ++ ps
  | _ => []

/-- Object literal `{ id: idVal, ...item }`: the spread's properties are
assigned over the initial binding in order, so a caller-supplied `id`
overrides the fresh one. -/
def objSpread (base : List (String × JSVal)) (item : JSVal) : JSVal :=
  .obj ((spreadProps item).foldl (fun fs p => setPairs fs p.1 p.2) base)

/-! ## Numbers, hexadecimal rendering, and the rolling hash -/

/-- Lowercase hexadecimal digit. -/
def hexDigit (n : Nat) : Char :=
  "0123456789abcdef".toList.getD n '0'

/-- Lowercase hexadecimal digits of a natural number, as produced by
`Number.prototype.toString(16)` on a non-negative integer.  The `fuel`
argument only makes the division recursion structural; `fuel = n + 1` always
suffices since `n / 16 < n` for `n ≥ 16`. -/
def natToHexAux : Nat → Nat → List Char
  | 0, _ => []
  | fuel + 1, n =>
    if n < 16 then [hexDigit n]
    else natToHexAux fuel (n / 16) ++ [hexDigit (n % 16)]

def natToHexList (n : Nat) : List Char := natToHexAux (n + 1) n

def natToHex (n : Nat) : String := String.mk (natToHexList n)

/-- `hash.toString(16)` for a 32-bit signed integer value: JavaScript renders
a negative number as a minus sign followed by the hex digits of its
magnitude. -/
def intToHexJS (h : Int) : String :=
  if h < 0 then "-" ++ natToHex (-h).toNat else natToHex h.toNat

/-- Wrap an integer to the 32-bit signed range, as the JavaScript `<<` and
`&` operators do via `ToInt32`. -/
def toInt32 (n : Int) : Int :=
  (n + 2 ^ 31) % 2 ^ 32 - 2 ^ 31

/-- One step of the rolling hash in `generateChecksum`:
`hash = ((hash << 5) - hash) + char; hash = hash & hash`.  The shift wraps to
32-bit signed, the subtraction and addition are exact, and `hash & hash`
coerces the result back to 32-bit signed. -/
def hashStep (h : Int) (c : Nat) : Int :=
  toInt32 (toInt32 (h * 32) - h + c)

/-- The rolling-hash fold; matching on the integer's constructor after each
step only forces the intermediate value, keeping kernel evaluation of the
fold iterative, and does not change the result. -/
def hashCodesAux : Int → List Nat → Int
  | h, [] => h
  | h, c :: cs =>
    match hashStep h c with
    | .ofNat n => hashCodesAux (.ofNat n) cs
    | .negSucc n => hashCodesAux (.negSucc n) cs

/-- The rolling hash of `generateChecksum` over a sequence of UTF-16 code
units, starting from `hash = 0`. -/
def hashCodes (cs : List Nat) : Int :=
  hashCodesAux 0 cs

/-- UTF-16 code units of a string, matching `String.prototype.charCodeAt`:
code points beyond the BMP yield a surrogate pair. -/
def charCodes16 (s : String) : List Nat :=
  s.toList.foldr
    (fun c acc =>
      if c.toNat < 0x10000 then c.toNat :: acc
      else
        (0xD800 + (c.toNat - 0x10000) / 0x400) ::
          ((0xDC00 + (c.toNat - 0x10000) % 0x400) :: acc))
    []

/-- Multiplicity of a prime factor `p` in `n` (used to decide whether a
rational has a finite decimal expansion).  The `fuel` argument only makes
the division recursion structural; `fuel = n` always suffices. -/
def factorCountAux : Nat → Nat → Nat → Nat
  | 0, _, _ => 0
  | fuel + 1, p, n =>
    if 2 ≤ p ∧ 0 < n ∧ n % p = 0 then factorCountAux fuel p (n / p) + 1 else 0

def factorCount (p n : Nat) : Nat := factorCountAux n p n

/-- Rendering of a finite JavaScript number by `JSON.stringify` and string
coercion: integers print without a fractional part, and rationals whose
denominator divides a power of ten print as their exact finite decimal
expansion (which is how every number the modelled code produces prints).
Other rationals — unreachable from the modelled code paths, which never
create them — fall back to a fraction rendering. -/
def jsNumToString (q : Rat) : String :=
  if q.den = 1 then toString q.num
  else
    let sign := if q < 0 then "-" else ""
    let a := factorCount 2 q.den
    let b := factorCount 5 q.den
    let k := max a b
    if q.den = 2 ^ a * 5 ^ b then
      -- |q| · 10^k is the integer (|num| · 10^k) / den, exactly
      let scaled := q.num.natAbs * 10 ^ k / q.den
      let intPart := scaled / 10 ^ k
      let frac := scaled % 10 ^ k
      let fracDigits := toString frac
      let pad := String.mk (List.replicate (k - fracDigits.length) '0')
      sign ++ toString intPart ++ "." ++ pad ++ fracDigits
    else toString q.num ++ "/" ++ toString q.den

/-- The escaping `JSON.stringify` applies inside a quoted string. -/
def jsQuoteChar (c : Char) : List Char :=
  if c = '"' then ['\\', '"']
  else if c = '\\' then ['\\', '\\']
  else if c.toNat = 8 then ['\\', 'b']
  else if c.toNat = 9 then ['\\', 't']
  else if c.toNat = 10 then ['\\', 'n']
  else if c.toNat = 12 then ['\\', 'f']
  else if c.toNat = 13 then ['\\', 'r']
  else if c.toNat < 0x20 then
    '\\' :: 'u' :: '0' :: '0' :: [hexDigit (c.toNat / 16), hexDigit (c.toNat % 16)]
  else [c]

/-- A string as quoted by `JSON.stringify`. -/
def jsQuote (s : String) : String :=
  "\"" ++ String.mk (s.toList.foldr (fun c acc => jsQuoteChar c ++ acc) []) ++ "\""

/-- Comma-joined concatenation. -/
def joinComma : List String → String
  | [] => ""
  | [s] => s
  | s :: ss => s ++ "," ++ joinComma ss

/-! ## `JSON.stringify` (compact form, as used for the checksum and the
key-value backend) -/

mutual

/-- `JSON.stringify(v)` with no indent; `none` models the call returning the
value `undefined` (for `undefined` input), object fields with `undefined`
values are omitted, and `undefined` array elements print as `null`. -/
def stringifyC : JSVal → Option String
  | .undef => none
  | .null => some "null"
  | .bool b => some (if b then "true" else "false")
  | .num q => some (jsNumToString q)
  | .nan => some "null"
  | .str s => some (jsQuote s)
  | .arr _ xs => some ("[" ++ joinComma (stringifyCElems xs) ++ "]")
  | .obj fs => some ("\x7b" ++ joinComma (stringifyCFields fs) ++ "\x7d")
  termination_by structural v => v

def stringifyCElems : List JSVal → List String
  | [] => []
  | v :: vs => ((stringifyC v).getD "null") :: stringifyCElems vs
  termination_by structural l => l

def stringifyCFields : List (String × JSVal) → List String
  | [] => []
  | (k, v) :: fs =>
    match stringifyC v with
    | none => stringifyCFields fs
    | some s => (jsQuote k ++ ":" ++ s) :: stringifyCFields fs
  termination_by structural l => l

end

/-! ## `JSON.stringify(v, null, 2)` (pretty form, used for file writes and
export) -/

/-- Indentation at nesting depth `d` with a two-space indent unit. -/
def indentAt (d : Nat) : String := String.mk (List.replicate (2 * d) ' ')

/-- Join with `",\n" ++ indent`. -/
def joinCommaNl (d : Nat) : List String → String
  | [] => ""
  | [s] => s
  | s :: ss => s ++ ",\n" ++ indentAt d ++ joinCommaNl d ss

mutual

/-- `JSON.stringify(v, null, 2)` at nesting depth `d`. -/
def stringifyP (d : Nat) : JSVal → Option String
  | .undef => none
  | .null => some "null"
  | .bool b => some (if b then "true" else "false")
  | .num q => some (jsNumToString q)
  | .nan => some "null"
  | .str s => some (jsQuote s)
  | .arr _ xs =>
    some (match stringifyPElems (d + 1) xs with
      | [] => "[]"
      | es =>
        "[\n" ++ indentAt (d + 1) ++ joinCommaNl (d + 1) es ++ "\n" ++
          indentAt d ++ "]")
  | .obj fs =>
    some (match stringifyPFields (d + 1) fs with
      | [] => "\x7b\x7d"
      | es =>
        "\x7b\n" ++ indentAt (d + 1) ++ joinCommaNl (d + 1) es ++ "\n" ++
          indentAt d ++ "\x7d")
  termination_by structural v => v

def stringifyPElems (d : Nat) : List JSVal → List String
  | [] => []
  | v :: vs => ((stringifyP d v).getD "null") :: stringifyPElems d vs
  termination_by structural l => l

def stringifyPFields (d : Nat) : List (String × JSVal) → List String
  | [] => []
  | (k, v) :: fs =>
    match stringifyP d v with
    | none => stringifyPFields d fs
    | some s => (jsQuote k ++ ": " ++ s) :: stringifyPFields d fs
  termination_by structural l => l

end

/-! ## `JSON.parse`

A model of the host JSON text grammar, sufficient for every payload the
engine itself writes: values are objects, arrays, strings with the standard
escapes, decimal numbers (the engine never serializes a number in exponent
form), `true`, `false` and `null`.  `none` models `JSON.parse` throwing. -/

/-- Skip JSON whitespace. -/
def skipWs : List Char → List Char
  | c :: cs => if c = ' ' ∨ c = '\n' ∨ c = '\t' ∨ c = '\r' then skipWs cs else c :: cs
  | [] => []

/-- Decode a single-character JSON string escape. -/
def decodeEscape : Char → Option Char
  | '"' => some '"'
  | '\\' => some '\\'
  | '/' => some '/'
  | 'b' => some (Char.ofNat 8)
  | 't' => some (Char.ofNat 9)
  | 'n' => some (Char.ofNat 10)
  | 'f' => some (Char.ofNat 12)
  | 'r' => some (Char.ofNat 13)
  | _ => none

/-- Parse the character sequence of a quoted string after the opening quote,
returning the decoded characters and the rest after the closing quote. -/
def parseStrChars : List Char → Option (List Char × List Char)
  | [] => none
  | '"' :: cs => some ([], cs)
  | '\\' :: e :: cs =>
    (decodeEscape e).bind fun c =>
      (parseStrChars cs).map fun r => (c :: r.1, r.2)
  | c :: cs => (parseStrChars cs).map fun r => (c :: r.1, r.2)

/-- Parse a run of decimal digits. -/
def parseDigits : List Char → List Char × List Char
  | c :: cs =>
    if c.isDigit then
      let r := parseDigits cs
      (c :: r.1, r.2)
    else ([], c :: cs)
  | [] => ([], [])

def digitsToNat (ds : List Char) : Nat :=
  ds.foldl (fun n c => n * 10 + (c.toNat - '0'.toNat)) 0

/-- Parse a JSON number without exponent part: optional minus, integer
digits, optional fraction. -/
def parseNum (cs : List Char) : Option (Rat × List Char) :=
  let (neg, cs) := match cs with
    | '-' :: rest => (true, rest)
    | _ => (false, cs)
  match parseDigits cs with
  | ([], _) => none
  | (ds, rest) =>
    let (q, rest) : Option Rat × List Char := match rest with
      | '.' :: rest2 =>
        match parseDigits rest2 with
        | ([], _) => (none, rest)
        | (fs, rest3) =>
          (some (mkRat (digitsToNat ds * 10 ^ fs.length + digitsToNat fs)
            (10 ^ fs.length)), rest3)
      | _ => (some ((digitsToNat ds : Nat) : Rat), rest)
    q.map fun q => (if neg then mkRat (-q.num) q.den else q, rest)

/-- Does `pre` prefix `cs`?  Returns the rest if so. -/
def stripPre : List Char → List Char → Option (List Char)
  | [], cs => some cs
  | p :: ps, c :: cs => if p = c then stripPre ps cs else none
  | _ :: _, [] => none

mutual

/-- Parse one JSON value; `fuel` bounds the nesting depth. -/
def parseVal : Nat → List Char → Option (JSVal × List Char)
  | 0, _ => none
  | _ + 1, [] => none
  | fuel + 1, c :: cs =>
    if c = '"' then (parseStrChars cs).map fun r => (.str (String.mk r.1), r.2)
    else if c = '\x7b' then
      match skipWs cs with
      | '\x7d' :: rest => some (.obj [], rest)
      | rest =>
        (parseFields fuel rest).map fun r =>
          (.obj (r.1.foldl (fun fs p => setPairs fs p.1 p.2) []), r.2)
    else if c = '[' then
      match skipWs cs with
      | ']' :: rest => some (.arr [] [], rest)
      | rest => (parseElems fuel rest).map fun r => (.arr [] r.1, r.2)
    else if c = 't' then (stripPre ['r', 'u', 'e'] cs).map fun r => (.bool true, r)
    else if c = 'f' then (stripPre ['a', 'l', 's', 'e'] cs).map fun r => (.bool false, r)
    else if c = 'n' then (stripPre ['u', 'l', 'l'] cs).map fun r => (.null, r)
    else (parseNum (c :: cs)).map fun r => (.num r.1, r.2)

/-- Parse `"key": value` pairs separated by commas, up to the closing brace,
returned in textual order; the object constructor above replays them as
assignments, so a duplicate key keeps its first position with its last
value, as `JSON.parse` does. -/
def parseFields : Nat → List Char → Option (List (String × JSVal) × List Char)
  | 0, _ => none
  | fuel + 1, cs =>
    match skipWs cs with
    | '"' :: cs2 =>
      (parseStrChars cs2).bind fun kr =>
        match skipWs kr.2 with
        | ':' :: cs3 =>
          (parseVal fuel (skipWs cs3)).bind fun vr =>
            match skipWs vr.2 with
            | ',' :: cs4 =>
              (parseFields fuel cs4).map fun fr =>
                ((String.mk kr.1, vr.1) :: fr.1, fr.2)
            | '\x7d' :: cs4 => some ([(String.mk kr.1, vr.1)], cs4)
            | _ => none
        | _ => none
    | _ => none

/-- Parse comma-separated values up to the closing bracket. -/
def parseElems : Nat → List Char → Option (List JSVal × List Char)
  | 0, _ => none
  | fuel + 1, cs =>
    (parseVal fuel (skipWs cs)).bind fun vr =>
      match skipWs vr.2 with
      | ',' :: cs2 => (parseElems fuel cs2).map fun er => (vr.1 :: er.1, er.2)
      | ']' :: cs2 => some ([vr.1], cs2)
      | _ => none

end

/-- `JSON.parse(s)`: parse one value surrounded by optional whitespace;
`none` models the parse throwing. -/
def jsonParse (s : String) : Option JSVal :=
  (parseVal (s.length + 1) (skipWs s.toList)).bind fun r =>
    match skipWs r.2 with
    | [] => some r.1
    | _ => none

/-! ## The settings document: defaults, checksum engine, validation
(`NavigationModel` in `src/script.js`) -/

/-- `this.defaultSettings.layout`. -/
def defaultLayout : JSVal :=
  .obj [("columns", .num 8), ("spacing", .num 10), ("iconSize", .num 48)]

/-- `this.defaultSettings.search`; `mkRat 1 5` is the literal `0.2`. -/
def defaultSearch : JSVal :=
  .obj [("engine", .str "google"), ("opacity", .num (mkRat 1 5))]

/-- The ten built-in navigation items of `this.defaultSettings`. -/
def defaultNavItems : JSVal :=
  .arr []
        [.obj [("id", .num 1), ("name", .str "Google"),
               ("url", .str "https://google.com"), ("icon", .str "🔍")],
         .obj [("id", .num 2), ("name", .str "GitHub"),
               ("url", .str "https://github.com"), ("icon", .str "💻")],
         .obj [("id", .num 3), ("name", .str "YouTube"),
               ("url", .str "https://youtube.com"), ("icon", .str "▶️")],
         .obj [("id", .num 4), ("name", .str "Gmail"),
               ("url", .str "https://mail.google.com"), ("icon", .str "📧")],
         .obj [("id", .num 5), ("name", .str "百度"),
               ("url", .str "https://baidu.com"), ("icon", .str "🌐")],
         .obj [("id", .num 6), ("name", .str "知乎"),
               ("url", .str "https://zhihu.com"), ("icon", .str "📚")],
         .obj [("id", .num 7), ("name", .str "CSDN"),
               ("url", .str "https://csdn.net"), ("icon", .str "👨‍💻")],
         .obj [("id", .num 8), ("name", .str "B站"),
               ("url", .str "https://bilibili.com"), ("icon", .str "🎬")],
         .obj [("id", .num 9), ("name", .str "淘宝"),
               ("url", .str "https://taobao.com"), ("icon", .str "🛒")],
         .obj [("id", .num 10), ("name", .str "微信"),
               ("url", .str "https://wx.qq.com"), ("icon", .str "💬")]]

/-- `this.defaultSettings`, as built in the `NavigationModel` constructor;
`t0` is the `Date.now()` value at construction time. -/
def defaultSettings (t0 : Int) : JSVal :=
  .obj
    [("version", .str "1.0"),
     ("timestamp", .num (t0 : Rat)),
     ("checksum", .str ""),
     ("wallpaper", .str ""),
     ("navigationItems", defaultNavItems),
     ("toolGroups", .arr [] []),
     ("layout", defaultLayout),
     ("search", defaultSearch),
     ("textColor", .str "#2d3748")]

/-- Rest-destructuring `const { checksum, ...dataWithoutChecksum } = data`:
every own enumerable property except `checksum`, in order.  For an array,
index keys come before named properties in own-property order.  The engine
only applies this to objects (and the array corner is unreachable but
modelled); on `null`/`undefined` JavaScript would throw, and destructuring a
primitive yields an object with no own properties. -/
def removeChecksumField : JSVal → JSVal
  | .obj fs => .obj (fs.filter fun p => p.1 ≠ "checksum")
  | .arr ps xs =>
    .obj ((xs.enum.map fun p => (toString p.1, p.2)) ++
      ps.filter fun p => p.1 ≠ "checksum")
  | _ => .obj []

/-- `generateChecksum(data)`: serialize the document with the `checksum`
field removed and run the 32-bit rolling hash over the UTF-16 code units of
the serialization, rendering the result in hexadecimal. -/
def generateChecksum (data : JSVal) : String :=
  let dataStr := (stringifyC (removeChecksumField data)).getD "undefined"
  intToHexJS (hashCodes (charCodes16 dataStr))

/-- `verifyChecksum(data)`: false on a falsy `checksum` field, otherwise
strict equality between the stored checksum and the recomputed digest. -/
def verifyChecksum (data : JSVal) : Bool :=
  JSVal.truthy (getField data "checksum") &&
    jsStrictEq (getField data "checksum") (.str (generateChecksum data))

/-- Model of the host `new URL(url)` constructor succeeding: the string must
start with a scheme (an ASCII letter followed by letters, digits, `+`, `-`
or `.`) and a colon.  This captures the absolute-URL requirement the
validator relies on; finer host URL rules are not needed by the theorems. -/
def schemeRest : List Char → Bool
  | [] => false
  | ':' :: _ => true
  | c :: cs => (c.isAlphanum || c = '+' || c = '-' || c = '.') && schemeRest cs

def urlParses (s : String) : Bool :=
  match s.toList with
  | [] => false
  | c :: cs => c.isAlpha && schemeRest cs

/-- `validateItem(item)`. -/
def validateItem (item : JSVal) : Bool :=
  JSVal.truthy item && JSVal.jsTypeof item = "object" &&
  JSVal.truthy (getField item "name") && JSVal.isStr (getField item "name") &&
  JSVal.truthy (getField item "url") && JSVal.isStr (getField item "url") &&
  (match getField item "url" with
    | .str u => urlParses u
    | _ => false) &&
  (getField item "id" = JSVal.undef || JSVal.isNum (getField item "id")) &&
  (getField item "icon" = JSVal.undef || JSVal.isStr (getField item "icon")) &&
  (getField item "toolGroupId" = JSVal.undef ||
    JSVal.isNum (getField item "toolGroupId") ||
    getField item "toolGroupId" = JSVal.null)

/-- The id values of a list of items, with the `undefined` ones filtered out
as in `validateNavigationItems`. -/
def presentIds (items : List JSVal) : List JSVal :=
  (items.map fun i => getField i "id").filter fun v => v ≠ JSVal.undef

/-- `validateNavigationItems(items)`: an array of well-formed items whose
present ids are pairwise distinct.  The source compares the array length
against the size of a `Set` of the ids; since all ids are numbers at that
point (every item already passed `validateItem`), `Set` membership is
structural equality and the size comparison is exactly pairwise
distinctness. -/
def validateNavigationItems (v : JSVal) : Bool :=
  JSVal.isArr v && (elemsOf v).all validateItem &&
    decide (presentIds (elemsOf v)).Nodup

/-- `validateSettings(settings)`. -/
def validateSettings (s : JSVal) : Bool :=
  JSVal.truthy s && JSVal.jsTypeof s = "object" &&
  validateNavigationItems (getField s "navigationItems") &&
  JSVal.truthy (getField s "layout") &&
  JSVal.jsTypeof (getField s "layout") = "object" &&
  JSVal.truthy (getField s "search") &&
  JSVal.jsTypeof (getField s "search") = "object" &&
  (getField s "toolGroups" = JSVal.undef || JSVal.isArr (getField s "toolGroups"))

/-! ## The repair step `ensureSettingsStructure`

The method is a straight-line sequence of conditional backfills over
`this.currentSettings` together with an `isModified` flag; each statement is
modelled as a function on the pair (document, flag), and the method body is
their composition followed by the conditional re-save. -/

/-- `if (!this.currentSettings || typeof this.currentSettings !== 'object')`:
replace a missing or non-object document with a shallow copy of the
defaults. -/
def fixBase (t0 : Int) (dm : JSVal × Bool) : JSVal × Bool :=
  if !(JSVal.truthy dm.1 && JSVal.jsTypeof dm.1 = "object") then
    (defaultSettings t0, true)
  else dm

/-- `if (!version || typeof version !== 'string') version = '1.0'`. -/
def fixVersion (dm : JSVal × Bool) : JSVal × Bool :=
  let v := getField dm.1 "version"
  if !(JSVal.truthy v && JSVal.isStr v) then
    (setField dm.1 "version" (.str "1.0"), true)
  else dm

/-- `if (!timestamp || typeof timestamp !== 'number') timestamp = Date.now()`. -/
def fixTimestamp (now : Int) (dm : JSVal × Bool) : JSVal × Bool :=
  let v := getField dm.1 "timestamp"
  if !(JSVal.truthy v && JSVal.isNum v) then
    (setField dm.1 "timestamp" (.num (now : Rat)), true)
  else dm

/-- `if (!checksum || typeof checksum !== 'string') checksum = generateChecksum(...)`. -/
def fixChecksum (dm : JSVal × Bool) : JSVal × Bool :=
  let v := getField dm.1 "checksum"
  if !(JSVal.truthy v && JSVal.isStr v) then
    (setField dm.1 "checksum" (.str (generateChecksum dm.1)), true)
  else dm

/-- `if (!Array.isArray(navigationItems)) navigationItems = []`. -/
def fixNavItems (dm : JSVal × Bool) : JSVal × Bool :=
  if !JSVal.isArr (getField dm.1 "navigationItems") then
    (setField dm.1 "navigationItems" (.arr [] []), true)
  else dm

/-- `if (!Array.isArray(toolGroups)) toolGroups = []`. -/
def fixToolGroups (dm : JSVal × Bool) : JSVal × Bool :=
  if !JSVal.isArr (getField dm.1 "toolGroups") then
    (setField dm.1 "toolGroups" (.arr [] []), true)
  else dm

/-- One per-field backfill inside the layout/search else-branches: replace
subfield `key` of `parent` with the default when its type check fails. -/
def fixSubNum (parent key : String) (deflt : JSVal) (dm : JSVal × Bool) :
    JSVal × Bool :=
  let p := getField dm.1 parent
  if !JSVal.isNum (getField p key) then
    (setField dm.1 parent (setField p key deflt), true)
  else dm

/-- The layout repair: replace a missing/non-object `layout` wholesale, or
backfill `columns`, `spacing`, `iconSize` individually. -/
def fixLayout (dm : JSVal × Bool) : JSVal × Bool :=
  let l := getField dm.1 "layout"
  if !(JSVal.truthy l && JSVal.jsTypeof l = "object") then
    (setField dm.1 "layout" defaultLayout, true)
  else
    fixSubNum "layout" "iconSize" (.num 48)
      (fixSubNum "layout" "spacing" (.num 10)
        (fixSubNum "layout" "columns" (.num 8) dm))

/-- The search-settings repair: replace a missing/non-object `search`
wholesale, or backfill `engine` and `opacity` individually. -/
def fixSearch (dm : JSVal × Bool) : JSVal × Bool :=
  let s := getField dm.1 "search"
  if !(JSVal.truthy s && JSVal.jsTypeof s = "object") then
    (setField dm.1 "search" defaultSearch, true)
  else
    let dm1 :=
      let s := getField dm.1 "search"
      if !JSVal.isStr (getField s "engine") then
        (setField dm.1 "search" (setField s "engine" (.str "google")), true)
      else dm
    let s1 := getField dm1.1 "search"
    if !JSVal.isNum (getField s1 "opacity") then
      (setField dm1.1 "search" (setField s1 "opacity" (.num (mkRat 1 5))), true)
    else dm1

/-- `if (!textColor || typeof textColor !== 'string') textColor = '#2d3748'`. -/
def fixTextColor (dm : JSVal × Bool) : JSVal × Bool :=
  let v := getField dm.1 "textColor"
  if !(JSVal.truthy v && JSVal.isStr v) then
    (setField dm.1 "textColor" (.str "#2d3748"), true)
  else dm

/-- The pure part of `ensureSettingsStructure`: the sequence of backfills,
returning the repaired document and the `isModified` flag. -/
def ensureCore (t0 now : Int) (d : JSVal) : JSVal × Bool :=
  fixTextColor (fixSearch (fixLayout (fixToolGroups (fixNavItems
    (fixChecksum (fixTimestamp now (fixVersion (fixBase t0 (d, false)))))))))

/-! ## Model state and the persistence operations -/

/-- Events observable at the storage boundary, in program order: the
synchronous `localStorage.setItem`, the start of the asynchronous
`storageAdapter.saveStorage()` call, and a native-file write. -/
inductive StorageEvent where
  | kvWrite : String → StorageEvent
  | adapterSave : String → StorageEvent
  | fileWrite : String → StorageEvent
deriving DecidableEq, Repr

/-- The mutable state of a `NavigationModel` instance relevant to the
persistence engine: the in-memory document, the key-value backend's stored
serialization, whether the richer-backend mirror is active
(`isFileStorageEnabled && storageAdapter`), and the boundary event trace. -/
structure ModelState where
  currentSettings : JSVal
  localStore : Option String
  fileStorageOn : Bool
  events : List StorageEvent
deriving DecidableEq, Repr

/-- `saveSettings()`.  `fuel` bounds the mutual recursion between
`saveSettings` and `ensureSettingsStructure`; the recursion terminates after
one round because a repaired document is fully structured, so fuel 2 is the
exact behaviour of the source for any `Date.now()` value `now > 0`
(see `ensureCore_structured_noMod`). -/
def saveSettingsAux : Nat → Int → Int → ModelState → Bool × ModelState
  | 0, _, _, st => (false, st)
  | fuel + 1, t0, now, st =>
    if validateSettings st.currentSettings then
      -- this.currentSettings.timestamp = Date.now();
      let d1 := setField st.currentSettings "timestamp" (.num (now : Rat))
      -- this.currentSettings.checksum = this.generateChecksum(this.currentSettings);
      let d2 := setField d1 "checksum" (.str (generateChecksum d1))
      -- this.ensureSettingsStructure(); (which re-enters saveSettings when modified)
      let r := ensureCore t0 now d2
      let stMid : ModelState := { st with currentSettings := r.1 }
      let stAfter :=
        if r.2 then (saveSettingsAux fuel t0 now stMid).2 else stMid
      -- localStorage.setItem(this.storageKey, JSON.stringify(this.currentSettings));
      let payload := (stringifyC stAfter.currentSettings).getD "undefined"
      -- this.storageAdapter.saveStorage() is started afterwards when enabled
      let newEvents :=
        [StorageEvent.kvWrite payload] ++
          (if stAfter.fileStorageOn then [StorageEvent.adapterSave payload] else [])
      (true,
        { stAfter with
          localStore := some payload
          events := stAfter.events ++ newEvents })
    else (false, st)

/-- `saveSettings()` as called from the mutator methods. -/
def saveSettings (t0 now : Int) (st : ModelState) : Bool × ModelState :=
  saveSettingsAux 2 t0 now st

/-- `ensureSettingsStructure()` as a state transformer: run the backfills
and re-save when anything was modified. -/
def ensureSettingsStructure (t0 now : Int) (st : ModelState) : ModelState :=
  let r := ensureCore t0 now st.currentSettings
  let st1 : ModelState := { st with currentSettings := r.1 }
  if r.2 then (saveSettingsAux 2 t0 now st1).2 else st1

/-! ## Navigation-item CRUD -/

/-- The `navigationItems` element list of the current document. -/
def navItems (st : ModelState) : List JSVal :=
  elemsOf (getField st.currentSettings "navigationItems")

/-- Rational addition spelled through `mkRat`.  The library `+` on `Rat` is
`@[irreducible]`, so concrete runs of the model could not evaluate through it;
this form is definitionally transparent and provably equal to `+`. -/
def ratAdd (a b : Rat) : Rat :=
  mkRat (a.num * b.den + b.num * a.den) (a.den * b.den)

/-- `addNavigationItem(item)`: compute `Math.max(...ids, 0) + 1`, build
`{ id: newId, ...item }`, push it, save, and return the new item. -/
def addNavigationItem (t0 now : Int) (st : ModelState) (item : JSVal) :
    ModelState × JSVal :=
  let newId : JSVal :=
    match jsMaxWithZero ((navItems st).map fun i => getField i "id") with
    | some m => .num (ratAdd m 1)
    | none => .nan
  let newItem := objSpread [("id", newId)] item
  let st1 : ModelState :=
    { st with
      currentSettings :=
        setField st.currentSettings "navigationItems"
          (pushElem (getField st.currentSettings "navigationItems") newItem) }
  ((saveSettingsAux 2 t0 now st1).2, newItem)

/-- `Array.prototype.findIndex`: index of the first element satisfying the
predicate. -/
def findIdxFrom (p : JSVal → Bool) : List JSVal → Option Nat
  | [] => none
  | x :: xs => if p x then some 0 else (findIdxFrom p xs).map (· + 1)

/-- `findIndex(item => item.id === id)` over the current items. -/
def findItemIdx (st : ModelState) (idArg : JSVal) : Option Nat :=
  findIdxFrom (fun it => jsStrictEq (getField it "id") idArg) (navItems st)

/-- Replace the element list of the `navigationItems` array, keeping its
named properties. -/
def setNavItems (st : ModelState) (xs : List JSVal) : ModelState :=
  { st with
    currentSettings :=
      setField st.currentSettings "navigationItems"
        (match getField st.currentSettings "navigationItems" with
          | .arr ps _ => .arr ps xs
          | v => v) }

/-- `deleteNavigationItem(id)`: splice the item out and save, or return
false when the id is absent. -/
def deleteNavigationItem (t0 now : Int) (st : ModelState) (idArg : JSVal) :
    Bool × ModelState :=
  match findItemIdx st idArg with
  | some i =>
    (true, (saveSettingsAux 2 t0 now (setNavItems st ((navItems st).eraseIdx i))).2)
  | none => (false, st)

/-- `moveNavigationItem(id, direction)`: swap with the neighbour in the given
direction and save; a no-op returning false at the boundary or for an
unknown id. -/
def moveNavigationItem (t0 now : Int) (st : ModelState) (idArg : JSVal)
    (direction : String) : Bool × ModelState :=
  match findItemIdx st idArg with
  | none => (false, st)
  | some i =>
    let items := navItems st
    if direction = "up" ∧ 0 < i then
      let a := items.getD i .undef
      let b := items.getD (i - 1) .undef
      (true,
        (saveSettingsAux 2 t0 now
          (setNavItems st ((items.set i b).set (i - 1) a))).2)
    else if direction = "down" ∧ i < items.length - 1 then
      let a := items.getD i .undef
      let b := items.getD (i + 1) .undef
      (true,
        (saveSettingsAux 2 t0 now
          (setNavItems st ((items.set i b).set (i + 1) a))).2)
    else (false, st)

/-- A sequence of navigation-item mutations, for the id-assignment claims. -/
inductive NavOp where
  | addOp : JSVal → NavOp
  | delOp : JSVal → NavOp

/-- Run a sequence of add/delete mutations, collecting the id assigned by
each add in order. -/
def runNavOps (t0 now : Int) : List NavOp → ModelState → ModelState × List JSVal
  | [], st => (st, [])
  | .addOp p :: ops, st =>
    let r := addNavigationItem t0 now st p
    let rest := runNavOps t0 now ops r.1
    (rest.1, getField r.2 "id" :: rest.2)
  | .delOp idArg :: ops, st =>
    runNavOps t0 now ops (deleteNavigationItem t0 now st idArg).2

/-! ## Import / export -/

/-- `exportSettings()` produces a blob URL; the modelled value is the blob's
content, `JSON.stringify(this.currentSettings, null, 2)`. -/
def exportSettings (st : ModelState) : String :=
  (stringifyP 0 st.currentSettings).getD "undefined"

/-- `importSettings(jsonData)`: parse, backfill the four top-level
collections when falsy, validate, and on success install + repair + save. -/
def importSettings (t0 now : Int) (st : ModelState) (jsonData : String) :
    Bool × ModelState :=
  match jsonParse jsonData with
  | none => (false, st)
  | some imported =>
    let i1 :=
      if !JSVal.truthy (getField imported "toolGroups") then
        setField imported "toolGroups" (.arr [] [])
      else imported
    let i2 :=
      if !JSVal.truthy (getField i1 "search") then
        setField i1 "search" defaultSearch
      else i1
    let i3 :=
      if !JSVal.truthy (getField i2 "layout") then
        setField i2 "layout" defaultLayout
      else i2
    let i4 :=
      if !JSVal.truthy (getField i3 "navigationItems") then
        setField i3 "navigationItems" (.arr [] [])
      else i3
    if validateSettings i4 then
      let st1 := { st with currentSettings := i4 }
      let st2 := ensureSettingsStructure t0 now st1
      (true, (saveSettingsAux 2 t0 now st2).2)
    else (false, st)

/-! ## Native file-handle load / save / restore -/

/-- `saveToFile()`: with a live handle, stamp timestamp and checksum and
overwrite the file with the pretty serialization (the separate backup-picker
write is a second host interaction with the same payload and is not traced
separately). -/
def saveToFile (now : Int) (hasHandle : Bool) (st : ModelState) :
    Bool × ModelState :=
  if !hasHandle then (false, st)
  else
    let d1 := setField st.currentSettings "timestamp" (.num (now : Rat))
    let d2 := setField d1 "checksum" (.str (generateChecksum d1))
    let payload := (stringifyP 0 d2).getD "undefined"
    (true,
      { st with
        currentSettings := d2
        events := st.events ++ [StorageEvent.fileWrite payload] })

/-- `restoreFromBackup()`: prompt for a backup file (`backupText`, with
`none` for a dismissed picker or read failure), parse it, and only when its
checksum verifies install it, repair, write it back to the file and to the
key-value backend. -/
def restoreFromBackup (t0 now : Int) (hasHandle : Bool) (st : ModelState)
    (backupText : Option String) : Bool × ModelState :=
  match backupText with
  | none => (false, st)
  | some txt =>
    match jsonParse txt with
    | none => (false, st)
    | some data =>
      if verifyChecksum data then
        let st1 := { st with currentSettings := data }
        let st2 := ensureSettingsStructure t0 now st1
        let st3 := (saveToFile now hasHandle st2).2
        (true, (saveSettingsAux 2 t0 now st3).2)
      else (false, st)

/-- `loadFromFile()`: read the handle's file (`fileText`, with `none` for a
missing handle path collapsed into the `hasHandle` flag or a read failure),
parse it, verify its checksum; on success install + repair + save, on
checksum failure fall back to `restoreFromBackup`. -/
def loadFromFile (t0 now : Int) (hasHandle : Bool) (st : ModelState)
    (fileText : Option String) (backupText : Option String) :
    Bool × ModelState :=
  if !hasHandle then (false, st)
  else
    match fileText with
    | none => (false, st)
    | some txt =>
      match jsonParse txt with
      | none => (false, st)
      | some data =>
        if verifyChecksum data then
          let st1 := { st with currentSettings := data }
          let st2 := ensureSettingsStructure t0 now st1
          (true, (saveSettingsAux 2 t0 now st2).2)
        else restoreFromBackup t0 now hasHandle st backupText

/-! ## Storage-adapter selection (`createStorageAdapter`) -/

/-- The four backend families. -/
inductive AdapterKind where
  | fileSystemAccess : AdapterKind
  | indexedDB : AdapterKind
  | firefoxStorage : AdapterKind
  | localStorage : AdapterKind
deriving DecidableEq, Repr

/-- Host capabilities as observed by the probe methods.  Each probe's body
may throw while touching host objects; `Except.error` models that, and the
probe methods swallow it in their own `catch` blocks.  `ctorThrows` models
an adapter constructor throwing inside the `try` of
`createStorageAdapter`. -/
structure HostEnv where
  fsProbe : Except Unit (Bool × Bool × Bool)
  idbProbe : Except Unit Bool
  firefoxProbe : Except Unit Bool
  firefoxFallback : Bool
  treaProbe : Except Unit Bool
  ctorThrows : AdapterKind → Bool

/-- `isFileSystemAPISupported()`: all three File System Access capabilities,
false on a probe error. -/
def isFileSystemAPISupported (env : HostEnv) : Bool :=
  match env.fsProbe with
  | .ok caps => caps.1 && caps.2.1 && caps.2.2
  | .error _ => false

/-- `isIndexedDBSupported()`: false on a probe error. -/
def isIndexedDBSupported (env : HostEnv) : Bool :=
  match env.idbProbe with
  | .ok b => b
  | .error _ => false

/-- `isFirefox()`: the combined user-agent/vendor/property check, with the
plain user-agent substring check as the `catch` fallback. -/
def isFirefox (env : HostEnv) : Bool :=
  match env.firefoxProbe with
  | .ok b => b
  | .error _ => env.firefoxFallback

/-- `isTreaBrowser()`: false on a probe error. -/
def isTreaBrowser (env : HostEnv) : Bool :=
  match env.treaProbe with
  | .ok b => b
  | .error _ => false

/-- The body of the `try` block in `createStorageAdapter`: the fixed
priority chain, with a throwing constructor surfacing as an error. -/
def tryCreateAdapter (env : HostEnv) : Except Unit AdapterKind :=
  let construct : AdapterKind → Except Unit AdapterKind := fun k =>
    if env.ctorThrows k then .error () else .ok k
  if isFileSystemAPISupported env then construct .fileSystemAccess
  else if isIndexedDBSupported env then construct .indexedDB
  else if isFirefox env || isTreaBrowser env then construct .firefoxStorage
  else construct .localStorage

/-- `createStorageAdapter()`: any exception inside the `try` falls back to
constructing a `LocalStorageAdapter` (whose constructor is plain field
assignment and cannot throw). -/
def createStorageAdapter (env : HostEnv) : AdapterKind :=
  match tryCreateAdapter env with
  | .ok k => k
  | .error _ => .localStorage

/-! ## Trace well-formedness for the write-ordering claim -/

/-- Every `adapterSave` in the trace is immediately preceded by a `kvWrite`
of the same payload: the synchronous key-value write happens-before the
asynchronous richer-backend write of the same mutation. -/
def okTrace : List StorageEvent → Bool
  | [] => true
  | .kvWrite s :: .adapterSave s2 :: t => s = s2 && okTrace t
  | .adapterSave _ :: _ => false
  | _ :: t => okTrace t

/-- The trace does not start with a richer-backend write. -/
def headNotAdapter : List StorageEvent → Bool
  | .adapterSave _ :: _ => false
  | _ => true

/-- Well-ordered traces compose, provided the second does not begin with a
richer-backend write. -/
def okTrace_append :
    ∀ a b, okTrace a = true → okTrace b = true → headNotAdapter b = true →
      okTrace (a ++ b) = true
  | [], _, _, hb, _ => hb
  | .kvWrite s :: .adapterSave s2 :: t, b, ha, hb, hh => by
    simp only [okTrace, Bool.and_eq_true] at ha
    simpa [okTrace, ha.1] using okTrace_append t b ha.2 hb hh
  | .adapterSave _ :: _, _, ha, _, _ => by simp [okTrace] at ha
  | [.kvWrite s], b, ha, hb, hh => by
    cases b with
    | nil => simpa using ha
    | cons e bs =>
      cases e with
      | adapterSave s2 => simp [headNotAdapter] at hh
      | kvWrite s2 => simpa [okTrace] using hb
      | fileWrite s2 => simpa [okTrace] using hb
  | .kvWrite s :: .kvWrite s2 :: t, b, ha, hb, hh => by
    simp only [okTrace] at ha
    simpa [okTrace] using okTrace_append (.kvWrite s2 :: t) b ha hb hh
  | .kvWrite s :: .fileWrite s2 :: t, b, ha, hb, hh => by
    simp only [okTrace] at ha
    simpa [okTrace] using okTrace_append (.fileWrite s2 :: t) b ha hb hh
  | .fileWrite s :: t, b, ha, hb, hh => by
    simp only [okTrace] at ha
    simpa [okTrace] using okTrace_append t b ha hb hh

/-! ## Full structural well-formedness: the fixed point of the repair step -/

def versionOkB (d : JSVal) : Bool :=
  JSVal.truthy (getField d "version") && JSVal.isStr (getField d "version")

def tsOkB (d : JSVal) : Bool :=
  JSVal.truthy (getField d "timestamp") && JSVal.isNum (getField d "timestamp")

def ckOkB (d : JSVal) : Bool :=
  JSVal.truthy (getField d "checksum") && JSVal.isStr (getField d "checksum")

def navOkB (d : JSVal) : Bool := JSVal.isArr (getField d "navigationItems")

def toolsOkB (d : JSVal) : Bool := JSVal.isArr (getField d "toolGroups")

def layoutOkB (d : JSVal) : Bool :=
  let l := getField d "layout"
  JSVal.truthy l && JSVal.jsTypeof l = "object" &&
  JSVal.isNum (getField l "columns") && JSVal.isNum (getField l "spacing") &&
  JSVal.isNum (getField l "iconSize")

def searchOkB (d : JSVal) : Bool :=
  let s := getField d "search"
  JSVal.truthy s && JSVal.jsTypeof s = "object" &&
  JSVal.isStr (getField s "engine") && JSVal.isNum (getField s "opacity")

def textOkB (d : JSVal) : Bool :=
  JSVal.truthy (getField d "textColor") && JSVal.isStr (getField d "textColor")

/-- A document on which every conditional backfill of
`ensureSettingsStructure` is a no-op. -/
def structuredB (d : JSVal) : Bool :=
  JSVal.truthy d && JSVal.jsTypeof d = "object" &&
  versionOkB d && tsOkB d && ckOkB d && navOkB d && toolsOkB d &&
  layoutOkB d && searchOkB d && textOkB d


/-- Shape of a value that is either untouched or written at a single key. -/
def WritesAt (key : String) (d e : JSVal) : Prop :=
  e = d ∨ ∃ x, e = setField d key x

/-- The timestamp-and-checksum stamping both save paths perform before
writing. -/
def stampDoc (now : Int) (d : JSVal) : JSVal :=
  setField (setField d "timestamp" (.num (now : Rat))) "checksum"
    (.str (generateChecksum (setField d "timestamp" (.num (now : Rat)))))


/-! ## Specification-side predicates for the id-assignment claims -/

/-- An integer id as a JavaScript number value. -/
def intIdVal (n : Int) : JSVal := JSVal.num (n : Rat)

/-- The items carry exactly the integer ids `ns`, in order. -/
def IntIdItems (items : List JSVal) (ns : List Int) : Prop :=
  items.map (fun i => getField i "id") = ns.map intIdVal

/-- The state invariant of the id-assignment claims: an object-like document
whose `navigationItems` is an array of items carrying pairwise distinct
integer ids. -/
def NavInv (st : ModelState) : Prop :=
  JSVal.isObjLike st.currentSettings = true ∧
  ∃ ps items ns,
    getField st.currentSettings "navigationItems" = JSVal.arr ps items ∧
    IntIdItems items ns ∧ ns.Nodup

/-- An `addNavigationItem` payload as produced by the UI dialogs: a plain
object with no `id` binding of its own. -/
def PayloadOk (p : JSVal) : Prop :=
  ∃ fs, p = JSVal.obj fs ∧ "id" ∉ fs.map Prod.fst

/-- Well-formedness of one mutation in a sequence. -/
def OpOk : NavOp → Prop
  | .addOp p => PayloadOk p
  | .delOp _ => True

/-! ## Concrete documents and states used by the witnesses and
counterexamples -/

/-- A small document accepted by `validateSettings` (the validator only
requires a well-formed `navigationItems` array and object-typed `layout` and
`search`); its `version` is the two-character string `"Aa"`. -/
def exDoc : JSVal :=
  .obj [("version", .str "Aa"), ("navigationItems", .arr [] []),
    ("layout", .obj []), ("search", .obj [])]

/-- A model state holding `exDoc` with the richer backend enabled. -/
def exState : ModelState :=
  { currentSettings := exDoc, localStore := none, fileStorageOn := true,
    events := [] }

/-- A document whose `navigationItems` is an array containing one malformed
item (an object with no `url`), which `validateItem` rejects. -/
def badItemDoc : JSVal :=
  .obj [("navigationItems", .arr [] [.obj [("name", .str "x")]])]

def badItemState : ModelState :=
  { currentSettings := badItemDoc, localStore := none, fileStorageOn := false,
    events := [] }

/-- A payload for `addNavigationItem` with no `id` field. -/
def exPayload : JSVal :=
  .obj [("name", .str "t"), ("url", .str "https://t.example/")]

/-- A well-formed navigation item with id 1. -/
def exItem1 : JSVal :=
  .obj [("id", .num 1), ("name", .str "a"), ("url", .str "https://a.b/")]

/-- A well-formed navigation item with id 2. -/
def exItem2 : JSVal :=
  .obj [("id", .num 2), ("name", .str "b"), ("url", .str "https://c.d/")]

/-- `exDoc` with the two items above installed. -/
def exTwoItemsState : ModelState :=
  { currentSettings :=
      .obj [("version", .str "Aa"),
        ("navigationItems", .arr [] [exItem1, exItem2]),
        ("layout", .obj []), ("search", .obj [])],
    localStore := none, fileStorageOn := false, events := [] }

/-- The result of repairing `exState`: a fully structured state. -/
def exStructState : ModelState := ensureSettingsStructure 5 7 exState

/-- A state holding one item with id 1. -/
def exDupState : ModelState :=
  { currentSettings :=
      .obj [("version", .str "Aa"), ("navigationItems", .arr [] [exItem1]),
        ("layout", .obj []), ("search", .obj [])],
    localStore := none, fileStorageOn := false, events := [] }

/-- A payload for `addNavigationItem` that carries its own `id: 1`,
colliding with the existing item. -/
def exDupPayload : JSVal :=
  .obj [("name", .str "d"), ("url", .str "https://d.e/"), ("id", .num 1)]

/-! # Lemma layer -/

/-! ## Field access and update -/

theorem lookupField_setPairs_self (fs : List (String × JSVal)) (k : String)
    (x : JSVal) : lookupField (setPairs fs k x) k = some x := by
  induction fs with
  | nil => simp [setPairs, lookupField]
  | cons p fs ih =>
    by_cases h : p.1 = k
    · simp [setPairs, h, lookupField]
    · simpa [setPairs, h, lookupField] using ih

theorem lookupField_setPairs_ne (fs : List (String × JSVal)) (k k' : String)
    (x : JSVal) (h : k ≠ k') :
    lookupField (setPairs fs k x) k' = lookupField fs k' := by
  induction fs with
  | nil => simp [setPairs, lookupField, h]
  | cons p fs ih =>
    by_cases hp : p.1 = k
    · simp [setPairs, hp, lookupField, h]
    · simp only [setPairs, hp, if_false, lookupField]
      by_cases hp' : p.1 = k' <;> simp [hp', ih]

theorem getField_setField_self (d : JSVal) (k : String) (x : JSVal)
    (h : JSVal.isObjLike d = true) : getField (setField d k x) k = x := by
  cases d <;> simp_all [JSVal.isObjLike, setField, getField, lookupField_setPairs_self]

theorem getField_setField_ne (d : JSVal) (k k' : String) (x : JSVal)
    (h : k ≠ k') : getField (setField d k x) k' = getField d k' := by
  cases d <;> simp [setField, getField, lookupField_setPairs_ne _ _ _ _ h]

theorem isObjLike_setField (d : JSVal) (k : String) (x : JSVal) :
    JSVal.isObjLike (setField d k x) = JSVal.isObjLike d := by
  cases d <;> simp [setField, JSVal.isObjLike]

theorem jsTypeof_setField (d : JSVal) (k : String) (x : JSVal) :
    JSVal.jsTypeof (setField d k x) = JSVal.jsTypeof d := by
  cases d <;> simp [setField, JSVal.jsTypeof]

theorem truthy_setField (d : JSVal) (k : String) (x : JSVal) :
    JSVal.truthy (setField d k x) = JSVal.truthy d := by
  cases d <;> simp [setField, JSVal.truthy]

theorem isArr_setField (d : JSVal) (k : String) (x : JSVal) :
    JSVal.isArr (setField d k x) = JSVal.isArr d := by
  cases d <;> simp [setField, JSVal.isArr]

theorem elemsOf_setField (d : JSVal) (k : String) (x : JSVal) :
    elemsOf (setField d k x) = elemsOf d := by
  cases d <;> simp [setField, elemsOf]

theorem objLike_of_truthy_object (d : JSVal) (h1 : JSVal.truthy d = true)
    (h2 : JSVal.jsTypeof d = "object") : JSVal.isObjLike d = true := by
  cases d <;> simp_all [JSVal.truthy, JSVal.jsTypeof, JSVal.isObjLike]

theorem truthy_of_objLike (d : JSVal) (h : JSVal.isObjLike d = true) :
    JSVal.truthy d = true := by
  cases d <;> simp_all [JSVal.truthy, JSVal.isObjLike]

theorem jsTypeof_of_objLike (d : JSVal) (h : JSVal.isObjLike d = true) :
    JSVal.jsTypeof d = "object" := by
  cases d <;> simp_all [JSVal.jsTypeof, JSVal.isObjLike]

theorem truthy_of_isArr (v : JSVal) (h : JSVal.isArr v = true) :
    JSVal.truthy v = true := by
  cases v <;> simp_all [JSVal.truthy, JSVal.isArr]

/-! ## The checksum is insensitive to the `checksum` field itself -/

theorem filter_setPairs_checksum (fs : List (String × JSVal)) (x : JSVal) :
    (setPairs fs "checksum" x).filter (fun p => p.1 ≠ "checksum") =
      fs.filter (fun p => p.1 ≠ "checksum") := by
  induction fs with
  | nil => simp [setPairs]
  | cons p fs ih =>
    by_cases h : p.1 = "checksum"
    · simp [setPairs, h]
    · simp only [ne_eq, decide_not] at ih
      simp only [setPairs, h, if_false, List.filter_cons]
      simp [ne_eq, h, ih, decide_not]

theorem removeChecksumField_setField_checksum (d : JSVal) (x : JSVal) :
    removeChecksumField (setField d "checksum" x) = removeChecksumField d := by
  cases d <;>
    simp only [setField, removeChecksumField, filter_setPairs_checksum]

theorem generateChecksum_setField_checksum (d : JSVal) (x : JSVal) :
    generateChecksum (setField d "checksum" x) = generateChecksum d := by
  simp [generateChecksum, removeChecksumField_setField_checksum]

theorem natToHexList_ne_nil (n : Nat) : natToHexList n ≠ [] := by
  rw [natToHexList, natToHexAux]
  split <;> simp

theorem natToHex_ne_empty (n : Nat) : natToHex n ≠ "" := by
  have h := natToHexList_ne_nil n
  simp only [natToHex]
  intro hc
  exact h (by simpa [String.mk] using congrArg String.data hc)

theorem intToHexJS_ne_empty (h : Int) : intToHexJS h ≠ "" := by
  unfold intToHexJS
  split
  · intro hc
    have := congrArg String.length hc
    simp [String.length_append] at this
    exact natToHex_ne_empty _ (by
      have := this.2
      cases hnat : natToHex (-h).toNat with
      | mk l => simp_all [String.length, hnat])
  · exact natToHex_ne_empty _

theorem generateChecksum_ne_empty (d : JSVal) : generateChecksum d ≠ "" :=
  intToHexJS_ne_empty _

/-- Stamping a checksum makes `verifyChecksum` succeed. -/
theorem verify_stamped (d : JSVal) (h : JSVal.isObjLike d = true) :
    verifyChecksum (setField d "checksum" (.str (generateChecksum d))) = true := by
  have hg := getField_setField_self d "checksum" (.str (generateChecksum d)) h
  simp [verifyChecksum, hg, JSVal.truthy, jsStrictEq,
    generateChecksum_setField_checksum, generateChecksum_ne_empty d]

/-- A document carrying some stamped string checksum whose recomputed digest
differs does not verify. -/
theorem verify_false_of_digest_ne (d : JSVal) (c : String)
    (hc : getField d "checksum" = .str c) (hne : generateChecksum d ≠ c) :
    verifyChecksum d = false := by
  simp only [verifyChecksum, hc, jsStrictEq, Bool.and_eq_false_iff]
  right
  simpa using fun hcontra => hne hcontra.symm

theorem versionOkB_congr (d d' : JSVal)
    (h : getField d' "version" = getField d "version") :
    versionOkB d' = versionOkB d := by simp [versionOkB, h]

theorem tsOkB_congr (d d' : JSVal)
    (h : getField d' "timestamp" = getField d "timestamp") :
    tsOkB d' = tsOkB d := by simp [tsOkB, h]

theorem ckOkB_congr (d d' : JSVal)
    (h : getField d' "checksum" = getField d "checksum") :
    ckOkB d' = ckOkB d := by simp [ckOkB, h]

theorem navOkB_congr (d d' : JSVal)
    (h : getField d' "navigationItems" = getField d "navigationItems") :
    navOkB d' = navOkB d := by simp [navOkB, h]

theorem toolsOkB_congr (d d' : JSVal)
    (h : getField d' "toolGroups" = getField d "toolGroups") :
    toolsOkB d' = toolsOkB d := by simp [toolsOkB, h]

theorem layoutOkB_congr (d d' : JSVal)
    (h : getField d' "layout" = getField d "layout") :
    layoutOkB d' = layoutOkB d := by simp [layoutOkB, h]

theorem searchOkB_congr (d d' : JSVal)
    (h : getField d' "search" = getField d "search") :
    searchOkB d' = searchOkB d := by simp [searchOkB, h]

theorem textOkB_congr (d d' : JSVal)
    (h : getField d' "textColor" = getField d "textColor") :
    textOkB d' = textOkB d := by simp [textOkB, h]

/-! ## Per-backfill lemmas: a flag left false means an untouched pair, each
backfill only writes its own key, and each backfill establishes its own
component -/

theorem fixVersion_false_id (dm : JSVal × Bool)
    (h : (fixVersion dm).2 = false) : fixVersion dm = dm := by
  simp only [fixVersion] at h ⊢
  split at h
  · simp at h
  · next hc => simp [hc]

theorem fixTimestamp_false_id (now : Int) (dm : JSVal × Bool)
    (h : (fixTimestamp now dm).2 = false) : fixTimestamp now dm = dm := by
  simp only [fixTimestamp] at h ⊢
  split at h
  · simp at h
  · next hc => simp [hc]

theorem fixChecksum_false_id (dm : JSVal × Bool)
    (h : (fixChecksum dm).2 = false) : fixChecksum dm = dm := by
  simp only [fixChecksum] at h ⊢
  split at h
  · simp at h
  · next hc => simp [hc]

theorem fixNavItems_false_id (dm : JSVal × Bool)
    (h : (fixNavItems dm).2 = false) : fixNavItems dm = dm := by
  simp only [fixNavItems] at h ⊢
  split at h
  · simp at h
  · next hc => simp [hc]

theorem fixToolGroups_false_id (dm : JSVal × Bool)
    (h : (fixToolGroups dm).2 = false) : fixToolGroups dm = dm := by
  simp only [fixToolGroups] at h ⊢
  split at h
  · simp at h
  · next hc => simp [hc]

theorem fixSubNum_false_id (parent key : String) (deflt : JSVal)
    (dm : JSVal × Bool) (h : (fixSubNum parent key deflt dm).2 = false) :
    fixSubNum parent key deflt dm = dm := by
  simp only [fixSubNum] at h ⊢
  split at h
  · simp at h
  · next hc => simp [hc]

theorem fixLayout_false_id (dm : JSVal × Bool)
    (h : (fixLayout dm).2 = false) : fixLayout dm = dm := by
  simp only [fixLayout] at h ⊢
  split at h
  · simp at h
  · next hc =>
    have h3 := fixSubNum_false_id _ _ _ _ h
    rw [h3] at h
    have h2 := fixSubNum_false_id _ _ _ _ h
    rw [h2] at h
    have h1 := fixSubNum_false_id _ _ _ _ h
    rw [if_neg hc, h3, h2, h1]

theorem fixSearch_false_id (dm : JSVal × Bool)
    (h : (fixSearch dm).2 = false) : fixSearch dm = dm := by
  simp only [fixSearch] at h ⊢
  split at h
  · simp at h
  · next hc =>
    rw [if_neg hc]
    cases h2 : (getField (getField dm.1 "search") "engine").isStr with
    | false =>
      simp only [h2, Bool.not_false, if_true] at h
      split at h <;> simp at h
    | true =>
      simp only [h2, Bool.not_true, Bool.false_eq_true, if_false] at h ⊢
      split at h
      · simp at h
      · next hc3 => rw [if_neg hc3]

theorem fixTextColor_false_id (dm : JSVal × Bool)
    (h : (fixTextColor dm).2 = false) : fixTextColor dm = dm := by
  simp only [fixTextColor] at h ⊢
  split at h
  · simp at h
  · next hc => simp [hc]

theorem fixBase_false_id (t0 : Int) (dm : JSVal × Bool)
    (h : (fixBase t0 dm).2 = false) : fixBase t0 dm = dm := by
  simp only [fixBase] at h ⊢
  split at h
  · simp at h
  · next hc => simp [hc]

theorem setPairs_setPairs_same (fs : List (String × JSVal)) (k : String)
    (x y : JSVal) : setPairs (setPairs fs k x) k y = setPairs fs k y := by
  induction fs with
  | nil => simp [setPairs]
  | cons p fs ih =>
    by_cases h : p.1 = k
    · simp [setPairs, h]
    · simp [setPairs, h, ih]

theorem setField_setField_same (d : JSVal) (k : String) (x y : JSVal) :
    setField (setField d k x) k y = setField d k y := by
  cases d <;> simp [setField, setPairs_setPairs_same]

theorem WritesAt.getField_ne {key : String} {d e : JSVal}
    (h : WritesAt key d e) (k : String) (hk : k ≠ key) :
    getField e k = getField d k := by
  rcases h with h | ⟨x, h⟩
  · rw [h]
  · rw [h, getField_setField_ne _ _ _ _ (Ne.symm hk)]

theorem WritesAt.objLike {key : String} {d e : JSVal} (h : WritesAt key d e) :
    JSVal.isObjLike e = JSVal.isObjLike d := by
  rcases h with h | ⟨x, h⟩ <;> simp [h, isObjLike_setField]

theorem fixVersion_writes (dm : JSVal × Bool) :
    WritesAt "version" dm.1 (fixVersion dm).1 := by
  simp only [fixVersion]
  split
  · exact Or.inr ⟨_, rfl⟩
  · exact Or.inl rfl

theorem fixTimestamp_writes (now : Int) (dm : JSVal × Bool) :
    WritesAt "timestamp" dm.1 (fixTimestamp now dm).1 := by
  simp only [fixTimestamp]
  split
  · exact Or.inr ⟨_, rfl⟩
  · exact Or.inl rfl

theorem fixChecksum_writes (dm : JSVal × Bool) :
    WritesAt "checksum" dm.1 (fixChecksum dm).1 := by
  simp only [fixChecksum]
  split
  · exact Or.inr ⟨_, rfl⟩
  · exact Or.inl rfl

theorem fixNavItems_writes (dm : JSVal × Bool) :
    WritesAt "navigationItems" dm.1 (fixNavItems dm).1 := by
  simp only [fixNavItems]
  split
  · exact Or.inr ⟨_, rfl⟩
  · exact Or.inl rfl

theorem fixToolGroups_writes (dm : JSVal × Bool) :
    WritesAt "toolGroups" dm.1 (fixToolGroups dm).1 := by
  simp only [fixToolGroups]
  split
  · exact Or.inr ⟨_, rfl⟩
  · exact Or.inl rfl

theorem fixSubNum_writes (parent key : String) (deflt : JSVal)
    (dm : JSVal × Bool) :
    WritesAt parent dm.1 (fixSubNum parent key deflt dm).1 := by
  simp only [fixSubNum]
  split
  · exact Or.inr ⟨_, rfl⟩
  · exact Or.inl rfl

theorem WritesAt.trans_same {key : String} {d e f : JSVal}
    (h1 : WritesAt key d e) (h2 : WritesAt key e f) : WritesAt key d f := by
  rcases h1 with h1 | ⟨x, h1⟩ <;> rcases h2 with h2 | ⟨y, h2⟩
  · exact Or.inl (h2.trans h1)
  · exact Or.inr ⟨y, by rw [h2, h1]⟩
  · exact Or.inr ⟨x, by rw [h2, h1]⟩
  · exact Or.inr ⟨y, by rw [h2, h1, setField_setField_same]⟩

theorem fixLayout_writes (dm : JSVal × Bool) :
    WritesAt "layout" dm.1 (fixLayout dm).1 := by
  simp only [fixLayout]
  split
  · exact Or.inr ⟨_, rfl⟩
  · exact ((fixSubNum_writes _ _ _ dm).trans_same
      ((fixSubNum_writes _ _ _ _).trans_same (fixSubNum_writes _ _ _ _)))

theorem fixSearch_writes (dm : JSVal × Bool) :
    WritesAt "search" dm.1 (fixSearch dm).1 := by
  simp only [fixSearch]
  split
  · exact Or.inr ⟨_, rfl⟩
  · split
    · split
      · exact Or.inr ⟨_, by rw [setField_setField_same]⟩
      · exact Or.inr ⟨_, rfl⟩
    · split
      · exact Or.inr ⟨_, rfl⟩
      · exact Or.inl rfl

theorem fixTextColor_writes (dm : JSVal × Bool) :
    WritesAt "textColor" dm.1 (fixTextColor dm).1 := by
  simp only [fixTextColor]
  split
  · exact Or.inr ⟨_, rfl⟩
  · exact Or.inl rfl

/-! ### Each backfill establishes its own component -/

theorem fixBase_objLike (t0 : Int) (dm : JSVal × Bool) :
    JSVal.isObjLike (fixBase t0 dm).1 = true := by
  simp only [fixBase]
  split
  · simp [defaultSettings, JSVal.isObjLike]
  · next hc =>
    simp only [Bool.not_eq_true', Bool.not_eq_false, Bool.and_eq_true,
      decide_eq_true_eq] at hc
    exact objLike_of_truthy_object _ hc.1 hc.2

theorem fixVersion_ok (dm : JSVal × Bool) (h : JSVal.isObjLike dm.1 = true) :
    versionOkB (fixVersion dm).1 = true := by
  simp only [fixVersion]
  split
  · simp [versionOkB, getField_setField_self _ _ _ h, JSVal.truthy, JSVal.isStr]
  · next hc =>
    simp only [Bool.not_eq_true', Bool.not_eq_false] at hc
    simpa [versionOkB] using hc

theorem fixTimestamp_ok (now : Int) (dm : JSVal × Bool) (hnow : now ≠ 0)
    (h : JSVal.isObjLike dm.1 = true) :
    tsOkB (fixTimestamp now dm).1 = true := by
  simp only [fixTimestamp]
  split
  · simp [tsOkB, getField_setField_self _ _ _ h, JSVal.truthy, JSVal.isNum,
      Int.cast_ne_zero, hnow]
  · next hc =>
    simp only [Bool.not_eq_true', Bool.not_eq_false] at hc
    simpa [tsOkB] using hc

theorem fixChecksum_ok (dm : JSVal × Bool) (h : JSVal.isObjLike dm.1 = true) :
    ckOkB (fixChecksum dm).1 = true := by
  simp only [fixChecksum]
  split
  · simp [ckOkB, getField_setField_self _ _ _ h, JSVal.truthy, JSVal.isStr,
      generateChecksum_ne_empty]
  · next hc =>
    simp only [Bool.not_eq_true', Bool.not_eq_false] at hc
    simpa [ckOkB] using hc

theorem fixNavItems_ok (dm : JSVal × Bool) (h : JSVal.isObjLike dm.1 = true) :
    navOkB (fixNavItems dm).1 = true := by
  simp only [fixNavItems]
  split
  · simp [navOkB, getField_setField_self _ _ _ h, JSVal.isArr]
  · next hc => simpa [navOkB] using hc

theorem fixToolGroups_ok (dm : JSVal × Bool)
    (h : JSVal.isObjLike dm.1 = true) :
    toolsOkB (fixToolGroups dm).1 = true := by
  simp only [fixToolGroups]
  split
  · simp [toolsOkB, getField_setField_self _ _ _ h, JSVal.isArr]
  · next hc => simpa [toolsOkB] using hc

theorem fixLayout_ok (dm : JSVal × Bool) (h : JSVal.isObjLike dm.1 = true) :
    layoutOkB (fixLayout dm).1 = true := by
  simp only [fixLayout]
  split
  · simp only [layoutOkB, getField_setField_self _ _ _ h]
    decide
  · next hc =>
    simp only [Bool.not_eq_true', Bool.not_eq_false, Bool.and_eq_true,
      decide_eq_true_eq] at hc
    have hlo : JSVal.isObjLike (getField dm.1 "layout") = true :=
      objLike_of_truthy_object _ hc.1 hc.2
    -- step 1: columns
    set dm1 := fixSubNum "layout" "columns" (.num 8) dm with hdm1
    have s1 : JSVal.isObjLike dm1.1 = true := by
      rw [(fixSubNum_writes _ _ _ dm).objLike]; exact h
    have l1w : WritesAt "columns" (getField dm.1 "layout") (getField dm1.1 "layout") := by
      rw [hdm1]
      simp only [fixSubNum]
      split
      · exact Or.inr ⟨_, by rw [getField_setField_self _ _ _ h]⟩
      · exact Or.inl rfl
    have l1o : JSVal.isObjLike (getField dm1.1 "layout") = true := by
      rw [l1w.objLike]; exact hlo
    have c1 : JSVal.isNum (getField (getField dm1.1 "layout") "columns") = true := by
      rw [hdm1]
      simp only [fixSubNum]
      split
      · simp [getField_setField_self _ _ _ h, getField_setField_self _ _ _ hlo,
          JSVal.isNum]
      · next hcc => simpa using hcc
    -- step 2: spacing
    set dm2 := fixSubNum "layout" "spacing" (.num 10) dm1 with hdm2
    have s2 : JSVal.isObjLike dm2.1 = true := by
      rw [(fixSubNum_writes _ _ _ dm1).objLike]; exact s1
    have l2w : WritesAt "spacing" (getField dm1.1 "layout") (getField dm2.1 "layout") := by
      rw [hdm2]
      simp only [fixSubNum]
      split
      · exact Or.inr ⟨_, by rw [getField_setField_self _ _ _ s1]⟩
      · exact Or.inl rfl
    have l2o : JSVal.isObjLike (getField dm2.1 "layout") = true := by
      rw [l2w.objLike]; exact l1o
    have c2 : JSVal.isNum (getField (getField dm2.1 "layout") "columns") = true := by
      rw [l2w.getField_ne _ (by decide)]; exact c1
    have p2 : JSVal.isNum (getField (getField dm2.1 "layout") "spacing") = true := by
      rw [hdm2]
      simp only [fixSubNum]
      split
      · simp [getField_setField_self _ _ _ s1, getField_setField_self _ _ _ l1o,
          JSVal.isNum]
      · next hcc => simpa using hcc
    -- step 3: iconSize
    set dm3 := fixSubNum "layout" "iconSize" (.num 48) dm2 with hdm3
    have l3w : WritesAt "iconSize" (getField dm2.1 "layout") (getField dm3.1 "layout") := by
      rw [hdm3]
      simp only [fixSubNum]
      split
      · exact Or.inr ⟨_, by rw [getField_setField_self _ _ _ s2]⟩
      · exact Or.inl rfl
    have l3o : JSVal.isObjLike (getField dm3.1 "layout") = true := by
      rw [l3w.objLike]; exact l2o
    have c3 : JSVal.isNum (getField (getField dm3.1 "layout") "columns") = true := by
      rw [l3w.getField_ne _ (by decide)]; exact c2
    have p3 : JSVal.isNum (getField (getField dm3.1 "layout") "spacing") = true := by
      rw [l3w.getField_ne _ (by decide)]; exact p2
    have i3 : JSVal.isNum (getField (getField dm3.1 "layout") "iconSize") = true := by
      rw [hdm3]
      simp only [fixSubNum]
      split
      · simp [getField_setField_self _ _ _ s2, getField_setField_self _ _ _ l2o,
          JSVal.isNum]
      · next hcc => simpa using hcc
    simp [layoutOkB, truthy_of_objLike _ l3o, jsTypeof_of_objLike _ l3o, c3, p3, i3]

theorem fixSearch_ok (dm : JSVal × Bool) (h : JSVal.isObjLike dm.1 = true) :
    searchOkB (fixSearch dm).1 = true := by
  simp only [fixSearch]
  split
  · simp only [searchOkB, getField_setField_self _ _ _ h]
    decide
  · next hc =>
    simp only [Bool.not_eq_true', Bool.not_eq_false, Bool.and_eq_true,
      decide_eq_true_eq] at hc
    have hso : JSVal.isObjLike (getField dm.1 "search") = true :=
      objLike_of_truthy_object _ hc.1 hc.2
    -- engine step
    cases he : (getField (getField dm.1 "search") "engine").isStr with
    | false =>
      simp only [he, Bool.not_false, if_true]
      have hgs : getField
          (setField dm.1 "search"
            (setField (getField dm.1 "search") "engine" (.str "google"))) "search" =
          setField (getField dm.1 "search") "engine" (.str "google") :=
        getField_setField_self _ _ _ h
      have hinner : JSVal.isObjLike
          (setField (getField dm.1 "search") "engine" (.str "google")) = true := by
        rw [isObjLike_setField]; exact hso
      have hset1 : JSVal.isObjLike
          (setField dm.1 "search"
            (setField (getField dm.1 "search") "engine" (.str "google"))) = true := by
        rw [isObjLike_setField]; exact h
      split
      · next hop =>
        simp only [searchOkB]
        rw [hgs]
        rw [getField_setField_self _ _ _ hset1]
        simp [truthy_setField, jsTypeof_setField, truthy_of_objLike _ hso,
          jsTypeof_of_objLike _ hso, getField_setField_self _ _ _ hinner,
          getField_setField_ne _ _ _ _
            (by decide : ("opacity" : String) ≠ "engine"),
          getField_setField_self _ _ _ hso, JSVal.isStr, JSVal.isNum]
      · next hop =>
        rw [hgs] at hop
        simp only [Bool.not_eq_true', Bool.not_eq_false] at hop
        simp only [searchOkB]
        rw [hgs]
        simp [truthy_setField, jsTypeof_setField, truthy_of_objLike _ hso,
          jsTypeof_of_objLike _ hso, getField_setField_self _ _ _ hso,
          getField_setField_ne _ _ _ _
            (by decide : ("opacity" : String) ≠ "engine"),
          JSVal.isStr, hop]
    | true =>
      simp only [he, Bool.not_true, Bool.false_eq_true, if_false]
      split
      · next hop =>
        simp [searchOkB, getField_setField_self _ _ _ h,
          getField_setField_self _ _ _ hso, truthy_setField, jsTypeof_setField,
          truthy_of_objLike _ hso, jsTypeof_of_objLike _ hso,
          getField_setField_ne _ _ _ _ (by decide : ("opacity" : String) ≠ "engine"),
          JSVal.isNum]
        simpa [JSVal.isStr] using he
      · next hop =>
        simp only [Bool.not_eq_true', Bool.not_eq_false] at hop
        simp [searchOkB, truthy_of_objLike _ hso, jsTypeof_of_objLike _ hso,
          he, hop]

theorem fixTextColor_ok (dm : JSVal × Bool)
    (h : JSVal.isObjLike dm.1 = true) :
    textOkB (fixTextColor dm).1 = true := by
  simp only [fixTextColor]
  split
  · simp [textOkB, getField_setField_self _ _ _ h, JSVal.truthy, JSVal.isStr]
  · next hc =>
    simp only [Bool.not_eq_true', Bool.not_eq_false] at hc
    simpa [textOkB] using hc

/-! ### On a fully structured document every backfill is a no-op -/

theorem fixBase_noop (t0 : Int) (dm : JSVal × Bool)
    (h1 : JSVal.truthy dm.1 = true) (h2 : JSVal.jsTypeof dm.1 = "object") :
    fixBase t0 dm = dm := by
  simp [fixBase, h1, h2]

theorem fixVersion_noop (dm : JSVal × Bool) (h : versionOkB dm.1 = true) :
    fixVersion dm = dm := by
  simp only [versionOkB, Bool.and_eq_true] at h
  simp [fixVersion, h.1, h.2]

theorem fixTimestamp_noop (now : Int) (dm : JSVal × Bool)
    (h : tsOkB dm.1 = true) : fixTimestamp now dm = dm := by
  simp only [tsOkB, Bool.and_eq_true] at h
  simp [fixTimestamp, h.1, h.2]

theorem fixChecksum_noop (dm : JSVal × Bool) (h : ckOkB dm.1 = true) :
    fixChecksum dm = dm := by
  simp only [ckOkB, Bool.and_eq_true] at h
  simp [fixChecksum, h.1, h.2]

theorem fixNavItems_noop (dm : JSVal × Bool) (h : navOkB dm.1 = true) :
    fixNavItems dm = dm := by
  simp only [navOkB] at h
  simp [fixNavItems, h]

theorem fixToolGroups_noop (dm : JSVal × Bool) (h : toolsOkB dm.1 = true) :
    fixToolGroups dm = dm := by
  simp only [toolsOkB] at h
  simp [fixToolGroups, h]

theorem fixLayout_noop (dm : JSVal × Bool) (h : layoutOkB dm.1 = true) :
    fixLayout dm = dm := by
  simp only [layoutOkB, Bool.and_eq_true, decide_eq_true_eq] at h
  obtain ⟨⟨⟨⟨ht, hty⟩, hc⟩, hs⟩, hi⟩ := h
  simp [fixLayout, fixSubNum, ht, hty, hc, hs, hi]

theorem fixSearch_noop (dm : JSVal × Bool) (h : searchOkB dm.1 = true) :
    fixSearch dm = dm := by
  simp only [searchOkB, Bool.and_eq_true, decide_eq_true_eq] at h
  obtain ⟨⟨⟨ht, hty⟩, he⟩, ho⟩ := h
  simp [fixSearch, ht, hty, he, ho]

theorem fixTextColor_noop (dm : JSVal × Bool) (h : textOkB dm.1 = true) :
    fixTextColor dm = dm := by
  simp only [textOkB, Bool.and_eq_true] at h
  simp [fixTextColor, h.1, h.2]

/-- On a fully structured document the repair pass is the identity with a
false `isModified` flag: repair never modifies an already well-formed
document. -/
theorem ensureCore_noop (t0 now : Int) (d : JSVal)
    (h : structuredB d = true) : ensureCore t0 now d = (d, false) := by
  simp only [structuredB, Bool.and_eq_true, decide_eq_true_eq] at h
  obtain ⟨⟨⟨⟨⟨⟨⟨⟨⟨h1, h2⟩, h3⟩, h4⟩, h5⟩, h6⟩, h7⟩, h8⟩, h9⟩, h10⟩ := h
  unfold ensureCore
  rw [fixBase_noop t0 (d, false) h1 h2, fixVersion_noop _ h3,
    fixTimestamp_noop _ _ h4, fixChecksum_noop _ h5, fixNavItems_noop _ h6,
    fixToolGroups_noop _ h7, fixLayout_noop _ h8, fixSearch_noop _ h9,
    fixTextColor_noop _ h10]

/-- The repair pass always produces a fully structured document (for any
non-zero clock value, which `Date.now()` always is). -/
theorem ensureCore_structured (t0 now : Int) (d : JSVal) (hnow : now ≠ 0) :
    structuredB (ensureCore t0 now d).1 = true := by
  unfold ensureCore
  set p0 := fixBase t0 (d, false) with hp0
  have o0 : JSVal.isObjLike p0.1 = true := fixBase_objLike t0 (d, false)
  -- version
  set p1 := fixVersion p0 with hp1
  have w1 := fixVersion_writes p0
  have o1 : JSVal.isObjLike p1.1 = true := by rw [w1.objLike]; exact o0
  have v1 : versionOkB p1.1 = true := fixVersion_ok p0 o0
  -- timestamp
  set p2 := fixTimestamp now p1 with hp2
  have w2 := fixTimestamp_writes now p1
  have o2 : JSVal.isObjLike p2.1 = true := by rw [w2.objLike]; exact o1
  have t2 : tsOkB p2.1 = true := fixTimestamp_ok now p1 hnow o1
  have v2 : versionOkB p2.1 = true := by
    rw [versionOkB_congr _ _ (w2.getField_ne _ (by decide))]; exact v1
  -- checksum
  set p3 := fixChecksum p2 with hp3
  have w3 := fixChecksum_writes p2
  have o3 : JSVal.isObjLike p3.1 = true := by rw [w3.objLike]; exact o2
  have c3 : ckOkB p3.1 = true := fixChecksum_ok p2 o2
  have v3 : versionOkB p3.1 = true := by
    rw [versionOkB_congr _ _ (w3.getField_ne _ (by decide))]; exact v2
  have t3 : tsOkB p3.1 = true := by
    rw [tsOkB_congr _ _ (w3.getField_ne _ (by decide))]; exact t2
  -- navigationItems
  set p4 := fixNavItems p3 with hp4
  have w4 := fixNavItems_writes p3
  have o4 : JSVal.isObjLike p4.1 = true := by rw [w4.objLike]; exact o3
  have n4 : navOkB p4.1 = true := fixNavItems_ok p3 o3
  have v4 : versionOkB p4.1 = true := by
    rw [versionOkB_congr _ _ (w4.getField_ne _ (by decide))]; exact v3
  have t4 : tsOkB p4.1 = true := by
    rw [tsOkB_congr _ _ (w4.getField_ne _ (by decide))]; exact t3
  have c4 : ckOkB p4.1 = true := by
    rw [ckOkB_congr _ _ (w4.getField_ne _ (by decide))]; exact c3
  -- toolGroups
  set p5 := fixToolGroups p4 with hp5
  have w5 := fixToolGroups_writes p4
  have o5 : JSVal.isObjLike p5.1 = true := by rw [w5.objLike]; exact o4
  have g5 : toolsOkB p5.1 = true := fixToolGroups_ok p4 o4
  have v5 : versionOkB p5.1 = true := by
    rw [versionOkB_congr _ _ (w5.getField_ne _ (by decide))]; exact v4
  have t5 : tsOkB p5.1 = true := by
    rw [tsOkB_congr _ _ (w5.getField_ne _ (by decide))]; exact t4
  have c5 : ckOkB p5.1 = true := by
    rw [ckOkB_congr _ _ (w5.getField_ne _ (by decide))]; exact c4
  have n5 : navOkB p5.1 = true := by
    rw [navOkB_congr _ _ (w5.getField_ne _ (by decide))]; exact n4
  -- layout
  set p6 := fixLayout p5 with hp6
  have w6 := fixLayout_writes p5
  have o6 : JSVal.isObjLike p6.1 = true := by rw [w6.objLike]; exact o5
  have l6 : layoutOkB p6.1 = true := fixLayout_ok p5 o5
  have v6 : versionOkB p6.1 = true := by
    rw [versionOkB_congr _ _ (w6.getField_ne _ (by decide))]; exact v5
  have t6 : tsOkB p6.1 = true := by
    rw [tsOkB_congr _ _ (w6.getField_ne _ (by decide))]; exact t5
  have c6 : ckOkB p6.1 = true := by
    rw [ckOkB_congr _ _ (w6.getField_ne _ (by decide))]; exact c5
  have n6 : navOkB p6.1 = true := by
    rw [navOkB_congr _ _ (w6.getField_ne _ (by decide))]; exact n5
  have g6 : toolsOkB p6.1 = true := by
    rw [toolsOkB_congr _ _ (w6.getField_ne _ (by decide))]; exact g5
  -- search
  set p7 := fixSearch p6 with hp7
  have w7 := fixSearch_writes p6
  have o7 : JSVal.isObjLike p7.1 = true := by rw [w7.objLike]; exact o6
  have s7 : searchOkB p7.1 = true := fixSearch_ok p6 o6
  have v7 : versionOkB p7.1 = true := by
    rw [versionOkB_congr _ _ (w7.getField_ne _ (by decide))]; exact v6
  have t7 : tsOkB p7.1 = true := by
    rw [tsOkB_congr _ _ (w7.getField_ne _ (by decide))]; exact t6
  have c7 : ckOkB p7.1 = true := by
    rw [ckOkB_congr _ _ (w7.getField_ne _ (by decide))]; exact c6
  have n7 : navOkB p7.1 = true := by
    rw [navOkB_congr _ _ (w7.getField_ne _ (by decide))]; exact n6
  have g7 : toolsOkB p7.1 = true := by
    rw [toolsOkB_congr _ _ (w7.getField_ne _ (by decide))]; exact g6
  have l7 : layoutOkB p7.1 = true := by
    rw [layoutOkB_congr _ _ (w7.getField_ne _ (by decide))]; exact l6
  -- textColor
  set p8 := fixTextColor p7 with hp8
  have w8 := fixTextColor_writes p7
  have o8 : JSVal.isObjLike p8.1 = true := by rw [w8.objLike]; exact o7
  have x8 : textOkB p8.1 = true := fixTextColor_ok p7 o7
  have v8 : versionOkB p8.1 = true := by
    rw [versionOkB_congr _ _ (w8.getField_ne _ (by decide))]; exact v7
  have t8 : tsOkB p8.1 = true := by
    rw [tsOkB_congr _ _ (w8.getField_ne _ (by decide))]; exact t7
  have c8 : ckOkB p8.1 = true := by
    rw [ckOkB_congr _ _ (w8.getField_ne _ (by decide))]; exact c7
  have n8 : navOkB p8.1 = true := by
    rw [navOkB_congr _ _ (w8.getField_ne _ (by decide))]; exact n7
  have g8 : toolsOkB p8.1 = true := by
    rw [toolsOkB_congr _ _ (w8.getField_ne _ (by decide))]; exact g7
  have l8 : layoutOkB p8.1 = true := by
    rw [layoutOkB_congr _ _ (w8.getField_ne _ (by decide))]; exact l7
  have s8 : searchOkB p8.1 = true := by
    rw [searchOkB_congr _ _ (w8.getField_ne _ (by decide))]; exact s7
  simp [structuredB, truthy_of_objLike _ o8, jsTypeof_of_objLike _ o8, v8, t8,
    c8, n8, g8, l8, s8, x8]

/-! ### Interaction of repair with validation and stamping -/

theorem objLike_of_validate (d : JSVal) (h : validateSettings d = true) :
    JSVal.isObjLike d = true := by
  simp only [validateSettings, Bool.and_eq_true, decide_eq_true_eq] at h
  exact objLike_of_truthy_object d h.1.1.1.1.1.1.1 h.1.1.1.1.1.1.2

/-- `validateSettings` only reads the four collection/object fields (plus the
value's own type), so writing any other key leaves it unchanged. -/
theorem validateSettings_setField (d x : JSVal) (k : String)
    (h1 : k ≠ "navigationItems") (h2 : k ≠ "layout") (h3 : k ≠ "search")
    (h4 : k ≠ "toolGroups") :
    validateSettings (setField d k x) = validateSettings d := by
  simp only [validateSettings, truthy_setField, jsTypeof_setField,
    getField_setField_ne _ _ _ _ h1, getField_setField_ne _ _ _ _ h2,
    getField_setField_ne _ _ _ _ h3, getField_setField_ne _ _ _ _ h4]

/-- The repair pass keeps the `navigationItems` field of an object-like
document whose items field is already an array. -/
theorem ensureCore_nav (t0 now : Int) (d : JSVal)
    (ho : JSVal.isObjLike d = true)
    (ha : JSVal.isArr (getField d "navigationItems") = true) :
    getField (ensureCore t0 now d).1 "navigationItems" =
      getField d "navigationItems" := by
  unfold ensureCore
  rw [fixBase_noop t0 (d, false) (truthy_of_objLike d ho) (jsTypeof_of_objLike d ho)]
  set p1 := fixVersion (d, false) with hp1
  have e1 : getField p1.1 "navigationItems" = getField d "navigationItems" :=
    (fixVersion_writes (d, false)).getField_ne _ (by decide)
  set p2 := fixTimestamp now p1 with hp2
  have e2 : getField p2.1 "navigationItems" = getField d "navigationItems" := by
    rw [(fixTimestamp_writes now p1).getField_ne _ (by decide)]; exact e1
  set p3 := fixChecksum p2 with hp3
  have e3 : getField p3.1 "navigationItems" = getField d "navigationItems" := by
    rw [(fixChecksum_writes p2).getField_ne _ (by decide)]; exact e2
  have hnoop : fixNavItems p3 = p3 := by
    apply fixNavItems_noop
    simp only [navOkB, e3]
    exact ha
  rw [hnoop]
  set p5 := fixToolGroups p3 with hp5
  have e5 : getField p5.1 "navigationItems" = getField d "navigationItems" := by
    rw [(fixToolGroups_writes p3).getField_ne _ (by decide)]; exact e3
  set p6 := fixLayout p5 with hp6
  have e6 : getField p6.1 "navigationItems" = getField d "navigationItems" := by
    rw [(fixLayout_writes p5).getField_ne _ (by decide)]; exact e5
  set p7 := fixSearch p6 with hp7
  have e7 : getField p7.1 "navigationItems" = getField d "navigationItems" := by
    rw [(fixSearch_writes p6).getField_ne _ (by decide)]; exact e6
  rw [(fixTextColor_writes p7).getField_ne _ (by decide)]
  exact e7

/-- Repairing a document the validator accepts yields a document the
validator still accepts. -/
theorem validate_ensureCore (t0 now : Int) (d : JSVal) (hnow : now ≠ 0)
    (hv : validateSettings d = true) :
    validateSettings (ensureCore t0 now d).1 = true := by
  have hs := ensureCore_structured t0 now d hnow
  simp only [structuredB, Bool.and_eq_true, decide_eq_true_eq] at hs
  obtain ⟨⟨⟨⟨⟨⟨⟨⟨⟨s1, s2⟩, _⟩, _⟩, _⟩, _⟩, s7⟩, s8⟩, s9⟩, _⟩ := hs
  simp only [layoutOkB, Bool.and_eq_true, decide_eq_true_eq] at s8
  simp only [searchOkB, Bool.and_eq_true, decide_eq_true_eq] at s9
  simp only [toolsOkB] at s7
  have ho := objLike_of_validate d hv
  simp only [validateSettings, Bool.and_eq_true, decide_eq_true_eq] at hv
  have hnav := ensureCore_nav t0 now d ho (by
    have := hv.1.1.1.1.1.1.2
    have hvn := hv.1.1.1.1.1.2
    simp only [validateNavigationItems, Bool.and_eq_true] at hvn
    exact hvn.1.1)
  simp only [validateSettings, Bool.and_eq_true, Bool.or_eq_true,
    decide_eq_true_eq]
  refine ⟨⟨⟨⟨⟨⟨⟨s1, s2⟩, ?_⟩, s8.1.1.1.1⟩, s8.1.1.1.2⟩, s9.1.1.1⟩, s9.1.1.2⟩,
    Or.inr s7⟩
  rw [hnav]
  exact hv.1.1.1.1.1.2

/-- A repair pass whose `isModified` flag came out false changed nothing. -/
theorem ensureCore_false_id (t0 now : Int) (d : JSVal)
    (h : (ensureCore t0 now d).2 = false) : ensureCore t0 now d = (d, false) := by
  unfold ensureCore at h ⊢
  have h9 := fixTextColor_false_id _ h
  rw [h9] at h
  have h8 := fixSearch_false_id _ h
  rw [h8] at h
  have h7 := fixLayout_false_id _ h
  rw [h7] at h
  have h6 := fixToolGroups_false_id _ h
  rw [h6] at h
  have h5 := fixNavItems_false_id _ h
  rw [h5] at h
  have h4 := fixChecksum_false_id _ h
  rw [h4] at h
  have h3 := fixTimestamp_false_id _ _ h
  rw [h3] at h
  have h2 := fixVersion_false_id _ h
  rw [h2] at h
  have h1 := fixBase_false_id _ _ h
  rw [h9, h8, h7, h6, h5, h4, h3, h2, h1]

theorem ensureCore_objLike (t0 now : Int) (d : JSVal) :
    JSVal.isObjLike (ensureCore t0 now d).1 = true := by
  unfold ensureCore
  rw [(fixTextColor_writes _).objLike, (fixSearch_writes _).objLike,
    (fixLayout_writes _).objLike, (fixToolGroups_writes _).objLike,
    (fixNavItems_writes _).objLike, (fixChecksum_writes _).objLike,
    (fixTimestamp_writes _ _).objLike, (fixVersion_writes _).objLike]
  exact fixBase_objLike t0 (d, false)

theorem validate_stampDoc (now : Int) (d : JSVal) :
    validateSettings (stampDoc now d) = validateSettings d := by
  unfold stampDoc
  rw [validateSettings_setField _ _ _ (by decide) (by decide) (by decide) (by decide),
    validateSettings_setField _ _ _ (by decide) (by decide) (by decide) (by decide)]

theorem saveSettingsAux_invalid (fuel : Nat) (t0 now : Int) (st : ModelState)
    (hv : validateSettings st.currentSettings = false) :
    saveSettingsAux (fuel + 1) t0 now st = (false, st) := by
  simp [saveSettingsAux, hv]



theorem structuredB_objLike (d : JSVal) (h : structuredB d = true) :
    JSVal.isObjLike d = true := by
  simp only [structuredB, Bool.and_eq_true, decide_eq_true_eq] at h
  exact objLike_of_truthy_object d h.1.1.1.1.1.1.1.1.1 h.1.1.1.1.1.1.1.1.2

theorem structuredB_stampDoc (now : Int) (d : JSVal)
    (hs : structuredB d = true) (hnow : now ≠ 0) :
    structuredB (stampDoc now d) = true := by
  have ho := structuredB_objLike d hs
  simp only [structuredB, Bool.and_eq_true, decide_eq_true_eq] at hs
  obtain ⟨⟨⟨⟨⟨⟨⟨⟨⟨_, _⟩, h3⟩, _⟩, _⟩, h6⟩, h7⟩, h8⟩, h9⟩, h10⟩ := hs
  unfold stampDoc
  set d1 := setField d "timestamp" (.num (now : Rat)) with hd1
  have ho1 : JSVal.isObjLike d1 = true := by rw [isObjLike_setField]; exact ho
  set g := generateChecksum d1 with hg
  set d2 := setField d1 "checksum" (.str g) with hd2
  have ho2 : JSVal.isObjLike d2 = true := by rw [isObjLike_setField]; exact ho1
  have w1 : WritesAt "timestamp" d d1 := Or.inr ⟨_, rfl⟩
  have w2 : WritesAt "checksum" d1 d2 := Or.inr ⟨_, rfl⟩
  have hts : getField d2 "timestamp" = .num (now : Rat) := by
    rw [w2.getField_ne _ (by decide), hd1, getField_setField_self _ _ _ ho]
  have hck : getField d2 "checksum" = .str g :=
    getField_setField_self _ _ _ ho1
  have hpres : ∀ k, k ≠ "timestamp" → k ≠ "checksum" → getField d2 k = getField d k := by
    intro k hk1 hk2
    rw [w2.getField_ne _ hk2, w1.getField_ne _ hk1]
  simp only [structuredB, Bool.and_eq_true, decide_eq_true_eq]
  refine ⟨⟨⟨⟨⟨⟨⟨⟨⟨truthy_of_objLike _ ho2, jsTypeof_of_objLike _ ho2⟩, ?_⟩, ?_⟩,
    ?_⟩, ?_⟩, ?_⟩, ?_⟩, ?_⟩, ?_⟩
  · rw [versionOkB_congr d d2 (hpres _ (by decide) (by decide))]
    exact h3
  · simp [tsOkB, hts, JSVal.truthy, JSVal.isNum, Int.cast_ne_zero, hnow]
  · simp [ckOkB, hck, JSVal.truthy, JSVal.isStr, hg, generateChecksum_ne_empty]
  · rw [navOkB_congr d d2 (hpres _ (by decide) (by decide))]
    exact h6
  · rw [toolsOkB_congr d d2 (hpres _ (by decide) (by decide))]
    exact h7
  · rw [layoutOkB_congr d d2 (hpres _ (by decide) (by decide))]
    exact h8
  · rw [searchOkB_congr d d2 (hpres _ (by decide) (by decide))]
    exact h9
  · rw [textOkB_congr d d2 (hpres _ (by decide) (by decide))]
    exact h10



theorem saveSettingsAux_two (n : Nat) (t0 now : Int) (st : ModelState)
    (hv : validateSettings st.currentSettings = true) (hnow : now ≠ 0) :
    ∃ x, JSVal.isObjLike x = true ∧ validateSettings x = true ∧
      (saveSettingsAux (n + 2) t0 now st).1 = true ∧
      (saveSettingsAux (n + 2) t0 now st).2.currentSettings = stampDoc now x ∧
      (saveSettingsAux (n + 2) t0 now st).2.localStore =
        some ((stringifyC (stampDoc now x)).getD "undefined") ∧
      (saveSettingsAux (n + 2) t0 now st).2.fileStorageOn = st.fileStorageOn := by
  have ho := objLike_of_validate _ hv
  show ∃ x, _ ∧ _ ∧ (saveSettingsAux (n + 1 + 1) t0 now st).1 = true ∧ _ ∧ _ ∧ _
  simp only [saveSettingsAux, hv, if_true]
  set d2 := setField (setField st.currentSettings "timestamp" (.num (now : Rat)))
    "checksum" (.str (generateChecksum (setField st.currentSettings "timestamp"
      (.num (now : Rat))))) with hd2
  have hstamp : stampDoc now st.currentSettings = d2 := by rw [stampDoc, hd2]
  have hvd2 : validateSettings d2 = true := by
    rw [← hstamp, validate_stampDoc]; exact hv
  cases hr : (ensureCore t0 now d2).2 with
  | false =>
    have hid := ensureCore_false_id t0 now d2 hr
    refine ⟨st.currentSettings, ho, hv, ?_⟩
    simp [hid, hstamp]
  | true =>
    have hst : structuredB (ensureCore t0 now d2).1 = true :=
      ensureCore_structured t0 now d2 hnow
    have ho1 : JSVal.isObjLike (ensureCore t0 now d2).1 = true :=
      structuredB_objLike _ hst
    have hv1 : validateSettings (ensureCore t0 now d2).1 = true :=
      validate_ensureCore t0 now d2 hnow hvd2
    have hs2 : structuredB (stampDoc now (ensureCore t0 now d2).1) = true :=
      structuredB_stampDoc now _ hst hnow
    have hnoop : ensureCore t0 now (stampDoc now (ensureCore t0 now d2).1) =
        (stampDoc now (ensureCore t0 now d2).1, false) :=
      ensureCore_noop t0 now _ hs2
    have hnoop' := hnoop
    rw [stampDoc] at hnoop'
    refine ⟨(ensureCore t0 now d2).1, ho1, hv1, ?_⟩
    simp [hr, hv1, hnoop', stampDoc]

/-! # Claims -/

/-- C1 (amended): after a successful `saveSettings`, `verifyChecksum` holds
of the current document — the stamped checksum equals `generateChecksum` of
the document with the checksum field removed — and any document carrying
that same stamped checksum whose recomputed digest differs fails
`verifyChecksum`.  (The original claim, that *any* change to the serialized
form flips the digest, fails: the 32-bit rolling hash admits collisions —
see the counterexample.) -/
theorem c1_checksum_after_save (t0 now : Int) (st : ModelState)
    (hv : validateSettings st.currentSettings = true) (hnow : now ≠ 0) :
    (saveSettings t0 now st).1 = true ∧
    verifyChecksum (saveSettings t0 now st).2.currentSettings = true ∧
    ∀ d' : JSVal,
      getField d' "checksum" =
        getField (saveSettings t0 now st).2.currentSettings "checksum" →
      generateChecksum d' ≠
        generateChecksum (saveSettings t0 now st).2.currentSettings →
      verifyChecksum d' = false := by
  obtain ⟨x, hox, hvx, h1, h2, h3, h4⟩ := saveSettingsAux_two 0 t0 now st hv hnow
  have hox1 : JSVal.isObjLike (setField x "timestamp" (.num (now : Rat))) = true := by
    rw [isObjLike_setField]; exact hox
  refine ⟨h1, ?_, ?_⟩
  · rw [saveSettings] at *
    rw [h2]
    exact verify_stamped _ hox1
  · intro d' hck hne
    rw [saveSettings] at *
    rw [h2] at hck hne
    refine verify_false_of_digest_ne d'
      (generateChecksum (setField x "timestamp" (.num (now : Rat)))) ?_ ?_
    · rw [hck, stampDoc, getField_setField_self _ _ _ hox1]
    · intro hcontra
      apply hne
      rw [hcontra, stampDoc, generateChecksum_setField_checksum]

/-- C1 witness: the general theorem applied to a concrete valid state. -/
theorem c1_checksum_after_save_witness :
    validateSettings exState.currentSettings = true ∧ (7 : Int) ≠ 0 ∧
      verifyChecksum (saveSettings 5 7 exState).2.currentSettings = true :=
  ⟨by decide, by decide,
    (c1_checksum_after_save 5 7 exState (by decide) (by decide)).2.1⟩

/-- C1 counterexample: saving a document whose `version` is `"Aa"` and then
flipping the version to `"BB"` changes the serialized payload outside the
checksum field, yet `verifyChecksum` still returns true — the rolling hash
collides on `"Aa"`/`"BB"`, refuting the claim that any serialized difference
is detected. -/
theorem c1_collision_counterexample :
    stringifyC (removeChecksumField
        (setField (saveSettings 5 7 exState).2.currentSettings "version"
          (.str "BB"))) ≠
      stringifyC (removeChecksumField
        (saveSettings 5 7 exState).2.currentSettings) ∧
    verifyChecksum
      (setField (saveSettings 5 7 exState).2.currentSettings "version"
        (.str "BB")) = true := by
  decide

/-- On a structured valid document a save is exactly one stamp-and-write:
the repair pass inside it is a no-op, so no recursion happens. -/
theorem saveSettingsAux_structured_eq (n : Nat) (t0 now : Int)
    (st : ModelState) (hs : structuredB st.currentSettings = true)
    (hv : validateSettings st.currentSettings = true) (hnow : now ≠ 0) :
    saveSettingsAux (n + 1) t0 now st =
      (true,
        { currentSettings := stampDoc now st.currentSettings
          localStore :=
            some ((stringifyC (stampDoc now st.currentSettings)).getD "undefined")
          fileStorageOn := st.fileStorageOn
          events := st.events ++
            [StorageEvent.kvWrite
              ((stringifyC (stampDoc now st.currentSettings)).getD "undefined")] ++
            (if st.fileStorageOn then
              [StorageEvent.adapterSave
                ((stringifyC (stampDoc now st.currentSettings)).getD "undefined")]
            else []) }) := by
  have hs2 : structuredB (stampDoc now st.currentSettings) = true :=
    structuredB_stampDoc now _ hs hnow
  have hnoop := ensureCore_noop t0 now _ hs2
  rw [stampDoc] at hnoop
  simp only [saveSettingsAux, hv, if_true, hnoop, stampDoc,
    Bool.false_eq_true, if_false, List.append_assoc]

/-- The repair step leaves the current document fully structured. -/
theorem ensureSettingsStructure_structured (t0 now : Int) (st : ModelState)
    (hnow : now ≠ 0) :
    structuredB (ensureSettingsStructure t0 now st).currentSettings = true := by
  unfold ensureSettingsStructure
  have hstr := ensureCore_structured t0 now st.currentSettings hnow
  cases hr : (ensureCore t0 now st.currentSettings).2 with
  | false => simpa [hr] using hstr
  | true =>
    simp only [hr, if_true]
    set st1 : ModelState :=
      { st with currentSettings := (ensureCore t0 now st.currentSettings).1 }
      with hst1
    cases hv : validateSettings st1.currentSettings with
    | false =>
      rw [show (2 : Nat) = 1 + 1 from rfl, saveSettingsAux_invalid 1 t0 now st1 hv]
      simpa [hst1] using hstr
    | true =>
      rw [show (2 : Nat) = 1 + 1 from rfl,
        saveSettingsAux_structured_eq 1 t0 now st1 (by simpa [hst1] using hstr) hv hnow]
      exact structuredB_stampDoc now _ (by simpa [hst1] using hstr) hnow

/-- On a fully structured state the repair step is the identity: no field
changes and no write of any kind is issued. -/
theorem ensureSettingsStructure_noop (t0 now : Int) (st : ModelState)
    (hs : structuredB st.currentSettings = true) :
    ensureSettingsStructure t0 now st = st := by
  unfold ensureSettingsStructure
  rw [ensureCore_noop t0 now _ hs]
  simp

/-- C8: the repair step is idempotent — repairing a repaired state changes
nothing (for any later clock values) — and on an already fully structured
document it changes no field and issues no write (the state, including the
key-value store and the event trace, is untouched). -/
theorem c8_repair_idempotent (t0 t0' now now' : Int) (st : ModelState)
    (hnow : now ≠ 0) :
    ensureSettingsStructure t0' now' (ensureSettingsStructure t0 now st) =
      ensureSettingsStructure t0 now st ∧
    (structuredB st.currentSettings = true →
      ensureSettingsStructure t0 now st = st) :=
  ⟨ensureSettingsStructure_noop t0' now' _
      (ensureSettingsStructure_structured t0 now st hnow),
   fun hs => ensureSettingsStructure_noop t0 now st hs⟩

/-- C8 witness: idempotence and write-freeness at concrete states. -/
theorem c8_repair_idempotent_witness :
    (7 : Int) ≠ 0 ∧
    ensureSettingsStructure 9 11 (ensureSettingsStructure 5 7 exState) =
      ensureSettingsStructure 5 7 exState ∧
    structuredB exStructState.currentSettings = true ∧
    ensureSettingsStructure 9 11 exStructState = exStructState :=
  ⟨by decide, (c8_repair_idempotent 5 9 7 11 exState (by decide)).1,
   by decide,
   (c8_repair_idempotent 9 0 11 1 exStructState (by decide)).2 (by decide)⟩

/-- After the base fix, the remaining backfills preserve an array-valued
`navigationItems` field. -/
theorem ensureCore_nav_base (t0 now : Int) (d : JSVal)
    (ha : JSVal.isArr (getField (fixBase t0 (d, false)).1 "navigationItems") = true) :
    getField (ensureCore t0 now d).1 "navigationItems" =
      getField (fixBase t0 (d, false)).1 "navigationItems" := by
  unfold ensureCore
  set p0 := fixBase t0 (d, false) with hp0
  set p1 := fixVersion p0 with hp1
  have e1 : getField p1.1 "navigationItems" = getField p0.1 "navigationItems" :=
    (fixVersion_writes p0).getField_ne _ (by decide)
  set p2 := fixTimestamp now p1 with hp2
  have e2 : getField p2.1 "navigationItems" = getField p0.1 "navigationItems" := by
    rw [(fixTimestamp_writes now p1).getField_ne _ (by decide)]; exact e1
  set p3 := fixChecksum p2 with hp3
  have e3 : getField p3.1 "navigationItems" = getField p0.1 "navigationItems" := by
    rw [(fixChecksum_writes p2).getField_ne _ (by decide)]; exact e2
  have hnoop : fixNavItems p3 = p3 := by
    apply fixNavItems_noop
    simp only [navOkB, e3]
    exact ha
  rw [hnoop]
  set p5 := fixToolGroups p3 with hp5
  have e5 : getField p5.1 "navigationItems" = getField p0.1 "navigationItems" := by
    rw [(fixToolGroups_writes p3).getField_ne _ (by decide)]; exact e3
  set p6 := fixLayout p5 with hp6
  have e6 : getField p6.1 "navigationItems" = getField p0.1 "navigationItems" := by
    rw [(fixLayout_writes p5).getField_ne _ (by decide)]; exact e5
  set p7 := fixSearch p6 with hp7
  have e7 : getField p7.1 "navigationItems" = getField p0.1 "navigationItems" := by
    rw [(fixSearch_writes p6).getField_ne _ (by decide)]; exact e6
  rw [(fixTextColor_writes p7).getField_ne _ (by decide)]
  exact e7

/-- After the base fix and the items fix, the repaired `navigationItems`
field always passes `validateNavigationItems`, provided the original field
was either not an array (it is replaced by `[]`) or a well-formed one. -/
theorem ensureCore_nav_validates (t0 now : Int) (d : JSVal)
    (hnav : JSVal.isArr (getField d "navigationItems") = true →
      validateNavigationItems (getField d "navigationItems") = true) :
    validateNavigationItems
      (getField (ensureCore t0 now d).1 "navigationItems") = true := by
  cases hb : JSVal.truthy d && decide (JSVal.jsTypeof d = "object") with
  | false =>
    -- the whole document is replaced by the defaults
    have hbase : fixBase t0 (d, false) = (defaultSettings t0, true) := by
      simp only [fixBase, hb, Bool.not_false, if_true]
    have hdnav : getField (defaultSettings t0) "navigationItems" = defaultNavItems := rfl
    rw [ensureCore_nav_base t0 now d (by rw [hbase]; simp [hdnav]; decide)]
    rw [hbase]
    simp only [hdnav]
    decide
  | true =>
    have hbn : fixBase t0 (d, false) = (d, false) := by
      simp only [fixBase, hb, Bool.not_true, Bool.false_eq_true, if_false]
    cases ha : JSVal.isArr (getField d "navigationItems") with
    | true =>
      rw [ensureCore_nav_base t0 now d (by rw [hbn]; exact ha)]
      rw [hbn]
      exact hnav ha
    | false =>
      -- the items field is replaced by the empty array
      simp only [Bool.and_eq_true, decide_eq_true_eq] at hb
      have ho : JSVal.isObjLike d = true := objLike_of_truthy_object d hb.1 hb.2
      unfold ensureCore
      rw [hbn]
      set p1 := fixVersion (d, false) with hp1
      have o1 : JSVal.isObjLike p1.1 = true := by
        rw [(fixVersion_writes (d, false)).objLike]; exact ho
      have e1 : getField p1.1 "navigationItems" = getField d "navigationItems" :=
        (fixVersion_writes (d, false)).getField_ne _ (by decide)
      set p2 := fixTimestamp now p1 with hp2
      have o2 : JSVal.isObjLike p2.1 = true := by
        rw [(fixTimestamp_writes now p1).objLike]; exact o1
      have e2 : getField p2.1 "navigationItems" = getField d "navigationItems" := by
        rw [(fixTimestamp_writes now p1).getField_ne _ (by decide)]; exact e1
      set p3 := fixChecksum p2 with hp3
      have o3 : JSVal.isObjLike p3.1 = true := by
        rw [(fixChecksum_writes p2).objLike]; exact o2
      have e3 : getField p3.1 "navigationItems" = getField d "navigationItems" := by
        rw [(fixChecksum_writes p2).getField_ne _ (by decide)]; exact e2
      have hset : fixNavItems p3 = (setField p3.1 "navigationItems" (.arr [] []), true) := by
        simp only [fixNavItems, e3, ha, Bool.not_false, if_true]
      rw [hset]
      set p4 : JSVal × Bool := (setField p3.1 "navigationItems" (.arr [] []), true)
        with hp4
      have e4 : getField p4.1 "navigationItems" = .arr [] [] := by
        rw [hp4]
        exact getField_setField_self _ _ _ o3
      set p5 := fixToolGroups p4 with hp5
      have e5 : getField p5.1 "navigationItems" = .arr [] [] := by
        rw [(fixToolGroups_writes p4).getField_ne _ (by decide)]; exact e4
      set p6 := fixLayout p5 with hp6
      have e6 : getField p6.1 "navigationItems" = .arr [] [] := by
        rw [(fixLayout_writes p5).getField_ne _ (by decide)]; exact e5
      set p7 := fixSearch p6 with hp7
      have e7 : getField p7.1 "navigationItems" = .arr [] [] := by
        rw [(fixSearch_writes p6).getField_ne _ (by decide)]; exact e6
      rw [(fixTextColor_writes p7).getField_ne _ (by decide), e7]
      decide

/-- Structural well-formedness plus well-formed items is exactly what
`validateSettings` checks. -/
theorem validate_of_structured_nav (d : JSVal) (hs : structuredB d = true)
    (hn : validateNavigationItems (getField d "navigationItems") = true) :
    validateSettings d = true := by
  simp only [structuredB, Bool.and_eq_true, decide_eq_true_eq] at hs
  obtain ⟨⟨⟨⟨⟨⟨⟨⟨⟨h1, h2⟩, _⟩, _⟩, _⟩, _⟩, h7⟩, h8⟩, h9⟩, _⟩ := hs
  simp only [layoutOkB, Bool.and_eq_true, decide_eq_true_eq] at h8
  simp only [searchOkB, Bool.and_eq_true, decide_eq_true_eq] at h9
  simp only [toolsOkB] at h7
  simp only [validateSettings, Bool.and_eq_true, Bool.or_eq_true,
    decide_eq_true_eq]
  exact ⟨⟨⟨⟨⟨⟨⟨h1, h2⟩, hn⟩, h8.1.1.1.1⟩, h8.1.1.1.2⟩, h9.1.1.1⟩, h9.1.1.2⟩,
    Or.inr h7⟩

/-- The conditional re-save inside the repair step never changes the
`navigationItems` field that the backfills produced. -/
theorem ensureSettingsStructure_nav (t0 now : Int) (st : ModelState)
    (hnow : now ≠ 0) :
    getField (ensureSettingsStructure t0 now st).currentSettings "navigationItems" =
      getField (ensureCore t0 now st.currentSettings).1 "navigationItems" := by
  unfold ensureSettingsStructure
  cases hr : (ensureCore t0 now st.currentSettings).2 with
  | false => simp [hr]
  | true =>
    simp only [hr, if_true]
    set st1 : ModelState :=
      { st with currentSettings := (ensureCore t0 now st.currentSettings).1 }
      with hst1
    have hstr : structuredB st1.currentSettings = true := by
      simpa [hst1] using ensureCore_structured t0 now st.currentSettings hnow
    cases hv : validateSettings st1.currentSettings with
    | false =>
      rw [show (2 : Nat) = 1 + 1 from rfl, saveSettingsAux_invalid 1 t0 now st1 hv]
    | true =>
      rw [show (2 : Nat) = 1 + 1 from rfl,
        saveSettingsAux_structured_eq 1 t0 now st1 hstr hv hnow]
      simp only [stampDoc]
      rw [getField_setField_ne _ _ _ _ (by decide),
        getField_setField_ne _ _ _ _ (by decide)]

/-- C2 (amended): the repair step always establishes presence and correct
typing of every top-level field (`navigationItems`/`toolGroups` arrays,
`layout`/`search` objects with typed subfields, string `version`, numeric
`timestamp`, string `checksum` and `textColor`), and the repaired document
passes `validateSettings` for every input whose `navigationItems`, when it
is an array, already consists of well-formed items with distinct ids.  The
original claim fails for other inputs: repair does not normalize the items
themselves — see the counterexample. -/
theorem c2_repair_validates (t0 now : Int) (st : ModelState) (hnow : now ≠ 0)
    (hnav : JSVal.isArr (getField st.currentSettings "navigationItems") = true →
      validateNavigationItems (getField st.currentSettings "navigationItems") = true) :
    structuredB (ensureSettingsStructure t0 now st).currentSettings = true ∧
    validateSettings (ensureSettingsStructure t0 now st).currentSettings = true := by
  have hs := ensureSettingsStructure_structured t0 now st hnow
  refine ⟨hs, validate_of_structured_nav _ hs ?_⟩
  rw [ensureSettingsStructure_nav t0 now st hnow]
  exact ensureCore_nav_validates t0 now st.currentSettings hnav

/-- C2 witness: the amended theorem at a concrete partially-formed state. -/
theorem c2_repair_validates_witness :
    (7 : Int) ≠ 0 ∧
    validateSettings (ensureSettingsStructure 5 7 exState).currentSettings = true :=
  ⟨by decide,
   (c2_repair_validates 5 7 exState (by decide) (fun _ => by decide)).2⟩

/-- C2 counterexample: a document holding one malformed navigation item (no
`url`) passes through the repair step unchanged in that item, and the
repaired document still fails `validateSettings` — repair does not imply
validity. -/
theorem c2_repair_not_valid_counterexample :
    validateSettings
      (ensureSettingsStructure 5 7 badItemState).currentSettings = false := by
  decide

/-- Every save call appends a well-ordered trace segment: each
`adapterSave` it emits is immediately preceded by the `kvWrite` of the same
serialized document. -/
theorem saveSettingsAux_events (fuel : Nat) : ∀ (t0 now : Int) (st : ModelState),
    ∃ dl, (saveSettingsAux fuel t0 now st).2.events = st.events ++ dl ∧
      okTrace dl = true := by
  induction fuel with
  | zero => exact fun t0 now st => ⟨[], by simp [saveSettingsAux], rfl⟩
  | succ n ih =>
    intro t0 now st
    cases hv : validateSettings st.currentSettings with
    | false => exact ⟨[], by simp [saveSettingsAux_invalid n t0 now st hv], rfl⟩
    | true =>
      simp only [saveSettingsAux, hv, if_true]
      cases hr : (ensureCore t0 now (setField (setField st.currentSettings
          "timestamp" (.num (now : Rat))) "checksum"
          (.str (generateChecksum (setField st.currentSettings "timestamp"
            (.num (now : Rat))))))).2 with
      | false =>
        simp only [hr, Bool.false_eq_true, if_false]
        refine ⟨_, rfl, ?_⟩
        cases st.fileStorageOn <;> simp [okTrace]
      | true =>
        simp only [hr, if_true]
        set stM : ModelState :=
          { st with
            currentSettings := (ensureCore t0 now (setField (setField
              st.currentSettings "timestamp" (.num (now : Rat))) "checksum"
              (.str (generateChecksum (setField st.currentSettings "timestamp"
                (.num (now : Rat))))))).1 } with hstM
        obtain ⟨dl1, hd1, ho1⟩ := ih t0 now stM
        refine ⟨dl1 ++
          ([StorageEvent.kvWrite ((stringifyC
              (saveSettingsAux n t0 now stM).2.currentSettings).getD "undefined")] ++
            if (saveSettingsAux n t0 now stM).2.fileStorageOn = true then
              [StorageEvent.adapterSave ((stringifyC
                (saveSettingsAux n t0 now stM).2.currentSettings).getD "undefined")]
            else []), ?_, ?_⟩
        · rw [hd1, List.append_assoc]
        · refine okTrace_append dl1 _ ho1 ?_ ?_ <;>
            cases hfs : (saveSettingsAux n t0 now stM).2.fileStorageOn <;>
            simp [okTrace, headNotAdapter, hfs]

/-- C4: for every mutation that persists the document through
`saveSettings`, the synchronous key-value write is issued before the
asynchronous richer-backend write of the same mutation: the events a save
appends form a trace in which every `adapterSave` is immediately preceded by
the `kvWrite` of the same serialized document. -/
theorem c4_kv_write_before_adapter_save (t0 now : Int) (st : ModelState) :
    ∃ dl, (saveSettings t0 now st).2.events = st.events ++ dl ∧
      okTrace dl = true :=
  saveSettingsAux_events 2 t0 now st

/-- C5: the adapter factory probes capabilities in the fixed priority order
File System Access, then IndexedDB, then the Firefox/Trea synthetic-file
family, then LocalStorage; it returns exactly one adapter kind for every
host environment, probe errors are swallowed as "unsupported", and a
throwing constructor makes it fall back to the LocalStorage adapter instead
of failing. -/
theorem c5_adapter_selection (env : HostEnv) :
    (isFileSystemAPISupported env = true →
      env.ctorThrows .fileSystemAccess = false →
      createStorageAdapter env = .fileSystemAccess) ∧
    (isFileSystemAPISupported env = false → isIndexedDBSupported env = true →
      env.ctorThrows .indexedDB = false →
      createStorageAdapter env = .indexedDB) ∧
    (isFileSystemAPISupported env = false → isIndexedDBSupported env = false →
      (isFirefox env || isTreaBrowser env) = true →
      env.ctorThrows .firefoxStorage = false →
      createStorageAdapter env = .firefoxStorage) ∧
    (isFileSystemAPISupported env = false → isIndexedDBSupported env = false →
      (isFirefox env || isTreaBrowser env) = false →
      env.ctorThrows .localStorage = false →
      createStorageAdapter env = .localStorage) ∧
    (∀ e, env.fsProbe = .error e → isFileSystemAPISupported env = false) ∧
    (∀ e, env.idbProbe = .error e → isIndexedDBSupported env = false) ∧
    (∀ e, env.treaProbe = .error e → isTreaBrowser env = false) ∧
    (tryCreateAdapter env = .error () →
      createStorageAdapter env = .localStorage) := by
  refine ⟨?_, ?_, ?_, ?_, ?_, ?_, ?_, ?_⟩
  · intro h1 h2
    simp [createStorageAdapter, tryCreateAdapter, h1, h2]
  · intro h1 h2 h3
    simp [createStorageAdapter, tryCreateAdapter, h1, h2, h3]
  · intro h1 h2 h3 h4
    simp [createStorageAdapter, tryCreateAdapter, h1, h2, h3, h4]
  · intro h1 h2 h3 h4
    simp only [Bool.or_eq_false_iff] at h3
    simp [createStorageAdapter, tryCreateAdapter, h1, h2, h3.1, h3.2, h4]
  · intro e he
    simp [isFileSystemAPISupported, he]
  · intro e he
    simp [isIndexedDBSupported, he]
  · intro e he
    simp [isTreaBrowser, he]
  · intro h
    simp [createStorageAdapter, h]

/-- C5 witness: the selection theorem applied to two concrete environments —
one with full File System Access support, and one whose probes throw and
whose IndexedDB constructor throws, which falls back to LocalStorage. -/
theorem c5_adapter_selection_witness :
    createStorageAdapter
      { fsProbe := .ok (true, true, true), idbProbe := .ok true,
        firefoxProbe := .ok false, firefoxFallback := false,
        treaProbe := .ok false, ctorThrows := fun _ => false } =
      .fileSystemAccess ∧
    createStorageAdapter
      { fsProbe := .error (), idbProbe := .ok true,
        firefoxProbe := .error (), firefoxFallback := true,
        treaProbe := .error (), ctorThrows := fun k => k == .indexedDB } =
      .localStorage :=
  ⟨(c5_adapter_selection _).1 (by decide) (by decide),
   (c5_adapter_selection _).2.2.2.2.2.2.2 (by rfl)⟩

/-- C6: a stored file whose checksum fails verification is never installed
as the current document.  `loadFromFile` falls through to
`restoreFromBackup`, which itself only installs a backup whose checksum
verifies; with no backup chosen, an unparseable backup, or a backup that
fails verification, the state — the in-memory document included — is
returned unchanged.  Without a live file handle the load fails with the
state unchanged as well. -/
theorem c6_untrusted_never_installed (t0 now : Int) (st : ModelState)
    (txt : String) (d : JSVal) (backupText : Option String)
    (hp : jsonParse txt = some d) (hfail : verifyChecksum d = false) :
    loadFromFile t0 now true st (some txt) backupText =
      restoreFromBackup t0 now true st backupText ∧
    loadFromFile t0 now false st (some txt) backupText = (false, st) ∧
    (∀ hh, backupText = none →
      restoreFromBackup t0 now hh st backupText = (false, st)) ∧
    (∀ hh b, backupText = some b → jsonParse b = none →
      restoreFromBackup t0 now hh st backupText = (false, st)) ∧
    (∀ hh b bd, backupText = some b → jsonParse b = some bd →
      verifyChecksum bd = false →
      restoreFromBackup t0 now hh st backupText = (false, st)) := by
  refine ⟨?_, ?_, ?_, ?_, ?_⟩
  · simp [loadFromFile, hp, hfail]
  · simp [loadFromFile]
  · intro hh hb
    simp [restoreFromBackup, hb]
  · intro hh b hb hpb
    simp [restoreFromBackup, hb, hpb]
  · intro hh b bd hb hpb hvb
    simp [restoreFromBackup, hb, hpb, hvb]

/-- C6 witness: the theorem at a concrete corrupt file (its stored checksum
`"x"` does not match the digest of its content) and a corrupt backup. -/
theorem c6_untrusted_never_installed_witness :
    jsonParse "\x7b\"checksum\":\"x\"\x7d" =
      some (.obj [("checksum", .str "x")]) ∧
    verifyChecksum (.obj [("checksum", .str "x")]) = false ∧
    loadFromFile 5 7 true exState (some "\x7b\"checksum\":\"x\"\x7d")
        (some "\x7b\"checksum\":\"y\"\x7d") =
      restoreFromBackup 5 7 true exState (some "\x7b\"checksum\":\"y\"\x7d") ∧
    restoreFromBackup 5 7 true exState (some "\x7b\"checksum\":\"y\"\x7d") =
      (false, exState) :=
  ⟨by decide, by decide,
   (c6_untrusted_never_installed 5 7 exState "\x7b\"checksum\":\"x\"\x7d"
      (.obj [("checksum", .str "x")]) (some "\x7b\"checksum\":\"y\"\x7d")
      (by decide) (by decide)).1,
   (c6_untrusted_never_installed 5 7 exState "\x7b\"checksum\":\"x\"\x7d"
      (.obj [("checksum", .str "x")]) _ (by decide) (by decide)).2.2.2.2 true
     "\x7b\"checksum\":\"y\"\x7d" (.obj [("checksum", .str "y")]) rfl
     (by decide) (by decide)⟩

/-! ### Lemmas for the navigation-item operations -/

theorem findIdxFrom_none (p : JSVal → Bool) :
    ∀ l, (∀ x ∈ l, p x = false) → findIdxFrom p l = none := by
  intro l
  induction l with
  | nil => intro _; rfl
  | cons x xs ih =>
    intro h
    simp [findIdxFrom, h x (by simp), ih fun y hy => h y (by simp [hy])]

theorem jsStrictEq_num_eq (a : JSVal) (z : Rat)
    (h : jsStrictEq a (.num z) = true) : a = .num z := by
  cases a <;> simp_all [jsStrictEq]

/-- A save never changes the `navigationItems` field of an object-like
document whose items field is an array, and keeps the document
object-like. -/
theorem saveSettingsAux_nav (fuel : Nat) :
    ∀ (t0 now : Int) (st : ModelState) (ps : List (String × JSVal))
      (xs : List JSVal),
      JSVal.isObjLike st.currentSettings = true →
      getField st.currentSettings "navigationItems" = .arr ps xs →
      getField (saveSettingsAux fuel t0 now st).2.currentSettings
          "navigationItems" = .arr ps xs ∧
        JSVal.isObjLike
          (saveSettingsAux fuel t0 now st).2.currentSettings = true := by
  induction fuel with
  | zero => exact fun t0 now st ps xs ho hn => ⟨hn, ho⟩
  | succ n ih =>
    intro t0 now st ps xs ho hn
    cases hv : validateSettings st.currentSettings with
    | false => rw [saveSettingsAux_invalid n t0 now st hv]; exact ⟨hn, ho⟩
    | true =>
      simp only [saveSettingsAux, hv, if_true]
      set d2 := setField (setField st.currentSettings "timestamp"
        (.num (now : Rat))) "checksum" (.str (generateChecksum
          (setField st.currentSettings "timestamp" (.num (now : Rat))))) with hd2
      have ho2 : JSVal.isObjLike d2 = true := by
        rw [hd2, isObjLike_setField, isObjLike_setField]; exact ho
      have hn2 : getField d2 "navigationItems" = .arr ps xs := by
        rw [hd2, getField_setField_ne _ _ _ _ (by decide),
          getField_setField_ne _ _ _ _ (by decide)]
        exact hn
      have hnr : getField (ensureCore t0 now d2).1 "navigationItems" = .arr ps xs := by
        rw [ensureCore_nav t0 now d2 ho2 (by rw [hn2]; rfl)]
        exact hn2
      have hor : JSVal.isObjLike (ensureCore t0 now d2).1 = true :=
        ensureCore_objLike t0 now d2
      cases hr : (ensureCore t0 now d2).2 with
      | false => simpa [hr] using ⟨hnr, hor⟩
      | true =>
        simp only [hr, if_true]
        exact ih t0 now _ ps xs hor hnr

/-- Swapping the first two items does not change `validateNavigationItems`. -/
theorem validateNavigationItems_swap (ps : List (String × JSVal))
    (a b : JSVal) (t : List JSVal) :
    validateNavigationItems (.arr ps (b :: a :: t)) =
      validateNavigationItems (.arr ps (a :: b :: t)) := by
  have hperm : (List.Perm (b :: a :: t) (a :: b :: t)) := List.Perm.swap a b t
  have hids : (presentIds (b :: a :: t)).Perm (presentIds (a :: b :: t)) :=
    (hperm.map _).filter _
  simp only [validateNavigationItems, elemsOf, JSVal.isArr, List.all_cons,
    Bool.true_and]
  rw [Bool.and_left_comm (validateItem b) (validateItem a)]
  congr 1
  simp [List.Perm.nodup_iff hids]

/-- Writing the `navigationItems` field with an equally-valid items array
leaves `validateSettings` unchanged. -/
theorem validateSettings_setField_nav (d v : JSVal)
    (ho : JSVal.isObjLike d = true)
    (h : validateNavigationItems v =
      validateNavigationItems (getField d "navigationItems")) :
    validateSettings (setField d "navigationItems" v) = validateSettings d := by
  simp only [validateSettings, truthy_setField, jsTypeof_setField,
    getField_setField_self _ _ _ ho,
    getField_setField_ne _ _ _ _ (by decide : ("navigationItems":String) ≠ "layout"),
    getField_setField_ne _ _ _ _ (by decide : ("navigationItems":String) ≠ "search"),
    getField_setField_ne _ _ _ _ (by decide : ("navigationItems":String) ≠ "toolGroups"),
    h]

/-- C9: with at least two items, moving the first item up is a no-op
returning false with the state untouched; moving the second item up swaps
positions 0 and 1, returns true, and (when the document is valid) persists
the swapped document to the key-value store; an id not present among the
items returns false with the state untouched for either direction. -/
theorem c9_move_navigation_item (t0 now : Int) (st : ModelState)
    (ps : List (String × JSVal)) (i0 i1 : JSVal) (rest : List JSVal)
    (x y : Rat) (ho : JSVal.isObjLike st.currentSettings = true)
    (hnav : getField st.currentSettings "navigationItems" =
      .arr ps (i0 :: i1 :: rest))
    (hid0 : getField i0 "id" = .num x) (hid1 : getField i1 "id" = .num y)
    (hxy : x ≠ y) :
    moveNavigationItem t0 now st (.num x) "up" = (false, st) ∧
    (moveNavigationItem t0 now st (.num y) "up").1 = true ∧
    getField (moveNavigationItem t0 now st (.num y) "up").2.currentSettings
      "navigationItems" = .arr ps (i1 :: i0 :: rest) ∧
    (validateSettings st.currentSettings = true → now ≠ 0 →
      ∃ s, (moveNavigationItem t0 now st (.num y) "up").2.localStore = some s) ∧
    (∀ z : Rat, (∀ it ∈ i0 :: i1 :: rest, getField it "id" ≠ .num z) →
      ∀ dir, moveNavigationItem t0 now st (.num z) dir = (false, st)) := by
  have hitems : navItems st = i0 :: i1 :: rest := by
    simp [navItems, hnav, elemsOf]
  have hfind0 : findItemIdx st (.num x) = some 0 := by
    simp [findItemIdx, hitems, findIdxFrom, hid0, jsStrictEq]
  have hfind1 : findItemIdx st (.num y) = some 1 := by
    simp [findItemIdx, hitems, findIdxFrom, hid0, hid1, jsStrictEq, hxy]
  have hstSwap : setNavItems st
      ((((navItems st).set 1 ((navItems st).getD 0 .undef)).set 0
        ((navItems st).getD 1 .undef))) =
      { st with currentSettings := (setField st.currentSettings
          "navigationItems" (.arr ps (i1 :: i0 :: rest))) } := by
    simp [setNavItems, hitems, hnav]
  have hoSwap : JSVal.isObjLike (setField st.currentSettings
      "navigationItems" (.arr ps (i1 :: i0 :: rest))) = true := by
    rw [isObjLike_setField]; exact ho
  have hnavSwap : getField (setField st.currentSettings "navigationItems"
      (.arr ps (i1 :: i0 :: rest))) "navigationItems" =
      .arr ps (i1 :: i0 :: rest) :=
    getField_setField_self _ _ _ ho
  refine ⟨?_, ?_, ?_, ?_, ?_⟩
  · simp [moveNavigationItem, hfind0, hitems]
  · simp only [moveNavigationItem, hfind1]
    norm_num
  · simp only [moveNavigationItem, hfind1]
    rw [if_pos ⟨trivial, by norm_num⟩, hstSwap]
    exact (saveSettingsAux_nav 2 t0 now _ ps (i1 :: i0 :: rest) hoSwap hnavSwap).1
  · intro hv hnow
    simp only [moveNavigationItem, hfind1]
    rw [if_pos ⟨trivial, by norm_num⟩, hstSwap]
    have hvSwap : validateSettings (setField st.currentSettings
        "navigationItems" (.arr ps (i1 :: i0 :: rest))) = true := by
      rw [validateSettings_setField_nav _ _ ho (by
        rw [hnav]
        exact validateNavigationItems_swap ps i0 i1 rest)]
      exact hv
    obtain ⟨w, _, _, _, _, hstore, _⟩ :=
      saveSettingsAux_two 0 t0 now
        { st with currentSettings := (setField st.currentSettings
            "navigationItems" (.arr ps (i1 :: i0 :: rest))) } hvSwap hnow
    exact ⟨_, hstore⟩
  · intro z hz dir
    have hfn : findItemIdx st (.num z) = none := by
      rw [findItemIdx, hitems]
      refine findIdxFrom_none _ _ fun it hit => ?_
      cases hq : jsStrictEq (getField it "id") (.num z) with
      | false => rfl
      | true => exact absurd (jsStrictEq_num_eq _ _ hq) (hz it hit)
    simp [moveNavigationItem, hfn]

/-- C9 witness: the move behaviour at a concrete two-item state. -/
theorem c9_move_navigation_item_witness :
    moveNavigationItem 5 7 exTwoItemsState (.num 1) "up" =
      (false, exTwoItemsState) ∧
    (moveNavigationItem 5 7 exTwoItemsState (.num 2) "up").1 = true ∧
    getField (moveNavigationItem 5 7 exTwoItemsState
        (.num 2) "up").2.currentSettings "navigationItems" =
      .arr [] [exItem2, exItem1] := by
  have h := c9_move_navigation_item 5 7 exTwoItemsState [] exItem1 exItem2 []
    1 2 (by decide) (by decide) (by decide) (by decide) (by decide)
  exact ⟨h.1, h.2.1, h.2.2.1⟩

/-! ### Object-spread lemmas -/

theorem foldl_setPairs_lookup_absent (k : String) :
    ∀ (fs : List (String × JSVal)) (base : List (String × JSVal)),
      k ∉ fs.map Prod.fst →
      lookupField (fs.foldl (fun acc p => setPairs acc p.1 p.2) base) k =
        lookupField base k := by
  intro fs
  induction fs with
  | nil => intro base _; rfl
  | cons p fs ih =>
    intro base hk
    simp only [List.map_cons, List.mem_cons, not_or] at hk
    simp only [List.foldl_cons]
    rw [ih _ hk.2, lookupField_setPairs_ne _ _ _ _ fun h => hk.1 h.symm]

theorem foldl_setPairs_lookup (k : String) (v : JSVal) :
    ∀ (fs : List (String × JSVal)) (base : List (String × JSVal)),
      (fs.map Prod.fst).Nodup → lookupField fs k = some v →
      lookupField (fs.foldl (fun acc p => setPairs acc p.1 p.2) base) k =
        some v := by
  intro fs
  induction fs with
  | nil => intro base _ h; simp [lookupField] at h
  | cons p fs ih =>
    intro base hnd hl
    simp only [List.map_cons, List.nodup_cons] at hnd
    simp only [List.foldl_cons]
    by_cases hp : p.1 = k
    · simp only [lookupField, hp, if_true] at hl
      rw [foldl_setPairs_lookup_absent k fs _ (hp ▸ hnd.1), ← hl, hp]
      exact lookupField_setPairs_self _ _ _
    · simp only [lookupField, hp, if_false] at hl
      exact ih _ hnd.2 hl

/-- C10: in `{ id: newId, ...item }` the spread lets a caller-supplied `id`
override the freshly computed `max + 1` id: for any payload object (with
distinct keys, as JavaScript object literals have) carrying an `id` binding,
the returned and stored item carries the caller's id; concretely, adding a
payload with `id: 1` next to an existing item with id 1 stores a duplicate
id that `validateNavigationItems` rejects. -/
theorem c10_spread_id_override (t0 now : Int) (st : ModelState)
    (fs : List (String × JSVal)) (v : JSVal)
    (hnd : (fs.map Prod.fst).Nodup) (hid : lookupField fs "id" = some v) :
    getField (addNavigationItem t0 now st (.obj fs)).2 "id" = v ∧
    getField (addNavigationItem 5 7 exDupState exDupPayload).2 "id" = .num 1 ∧
    validateNavigationItems
      (getField (addNavigationItem 5 7 exDupState
        exDupPayload).1.currentSettings "navigationItems") = false := by
  refine ⟨?_, by decide, by decide⟩
  simp only [addNavigationItem, objSpread, spreadProps, getField]
  rw [foldl_setPairs_lookup "id" v fs _ hnd hid]
  rfl

/-- C10 witness: the override theorem applied to the concrete colliding
payload. -/
theorem c10_spread_id_override_witness :
    lookupField [("name", JSVal.str "d"), ("url", JSVal.str "https://d.e/"),
      ("id", JSVal.num 1)] "id" = some (JSVal.num 1) ∧
    getField (addNavigationItem 5 7 exDupState
      (.obj [("name", JSVal.str "d"), ("url", JSVal.str "https://d.e/"),
        ("id", JSVal.num 1)])).2 "id" = JSVal.num 1 :=
  ⟨by decide,
   (c10_spread_id_override 5 7 exDupState
      [("name", JSVal.str "d"), ("url", JSVal.str "https://d.e/"),
        ("id", JSVal.num 1)] (JSVal.num 1) (by decide) (by decide)).1⟩

/-! ### Arithmetic of `Math.max(...ids, 0) + 1` -/

theorem ratAdd_eq (a b : Rat) : ratAdd a b = a + b :=
  (Rat.add_def' a b).symm

theorem foldl_max_init_le (ns : List Int) : ∀ a : Int, a ≤ ns.foldl max a := by
  induction ns with
  | nil => exact fun a => le_refl a
  | cons n t ih => exact fun a => le_trans (le_max_left a n) (ih (max a n))

theorem mem_le_foldl_max (ns : List Int) :
    ∀ (a n : Int), n ∈ ns → n ≤ ns.foldl max a := by
  induction ns with
  | nil => intro a n h; simp at h
  | cons m t ih =>
    intro a n h
    rcases List.mem_cons.1 h with h | h
    · subst h
      exact le_trans (le_max_right a n) (foldl_max_init_le t (max a n))
    · exact ih (max a m) n h

theorem jsMaxWithZero_intIds (ns : List Int) :
    jsMaxWithZero (ns.map intIdVal) = some ((ns.foldl max 0 : Int) : Rat) := by
  have step : ∀ (t : List Int) (a : Int),
      (t.map intIdVal).foldl jsMaxStep (some (a : Rat)) =
        some ((t.foldl max a : Int) : Rat) := by
    intro t
    induction t with
    | nil => intro a; rfl
    | cons n t ih =>
      intro a
      simp only [List.map_cons, List.foldl_cons]
      have happ : jsMaxStep (some (a : Rat)) (intIdVal n) =
          some (if (a : Rat) < (n : Rat) then (n : Rat) else (a : Rat)) := rfl
      have hcast : (if (a : Rat) < (n : Rat) then (n : Rat) else (a : Rat)) =
          ((max a n : Int) : Rat) := by
        by_cases h : a < n
        · simp [h, Int.cast_lt.2 h, max_eq_right (le_of_lt h)]
        · have h2 : ¬ ((a : Rat) < (n : Rat)) := fun hc => h (Int.cast_lt.1 hc)
          simp [h2, max_eq_left (not_lt.1 h)]
      rw [happ, hcast, ih (max a n)]
  simpa using step ns 0

theorem eraseIdx_map (f : JSVal → JSVal) :
    ∀ (l : List JSVal) (i : Nat), (l.eraseIdx i).map f = (l.map f).eraseIdx i := by
  intro l
  induction l with
  | nil => intro i; rfl
  | cons x xs ih =>
    intro i
    cases i with
    | zero => rfl
    | succ j => simp [List.eraseIdx, ih j]

theorem eraseIdx_map_ids (items : List JSVal) (ns : List Int) (i : Nat)
    (h : IntIdItems items ns) : IntIdItems (items.eraseIdx i) (ns.eraseIdx i) := by
  unfold IntIdItems at *
  rw [eraseIdx_map _ items i, h]
  clear h
  induction ns generalizing i with
  | nil => rfl
  | cons n t ih =>
    cases i with
    | zero => rfl
    | succ j => simp [List.eraseIdx, ih j]

/-- `addNavigationItem` with an id-less payload assigns exactly
`max(existing ids, 0) + 1`, which is fresh, and preserves the invariant. -/
theorem addNavigationItem_spec (t0 now : Int) (st : ModelState)
    (ps : List (String × JSVal)) (items : List JSVal) (ns : List Int)
    (fs : List (String × JSVal))
    (ho : JSVal.isObjLike st.currentSettings = true)
    (hnav : getField st.currentSettings "navigationItems" = .arr ps items)
    (hids : IntIdItems items ns) (hnd : ns.Nodup)
    (hp : "id" ∉ fs.map Prod.fst) :
    getField (addNavigationItem t0 now st (.obj fs)).2 "id" =
      intIdVal (ns.foldl max 0 + 1) ∧
    (ns.foldl max 0 + 1) ∉ ns ∧
    NavInv (addNavigationItem t0 now st (.obj fs)).1 := by
  have hitems : navItems st = items := by simp [navItems, hnav, elemsOf]
  have hmax : jsMaxWithZero ((navItems st).map fun i => getField i "id") =
      some ((ns.foldl max 0 : Int) : Rat) := by
    rw [hitems, hids]
    exact jsMaxWithZero_intIds ns
  have hfresh : (ns.foldl max 0 + 1) ∉ ns := fun hmem =>
    absurd (mem_le_foldl_max ns 0 _ hmem) (by omega)
  have hcast : (JSVal.num (((ns.foldl max 0 : Int) : Rat) + 1)) =
      intIdVal (ns.foldl max 0 + 1) := by
    unfold intIdVal
    push_cast
    rfl
  have hnewItem : getField (objSpread
      [("id", JSVal.num (((ns.foldl max 0 : Int) : Rat) + 1))] (.obj fs)) "id" =
      intIdVal (ns.foldl max 0 + 1) := by
    simp only [objSpread, spreadProps, getField]
    rw [foldl_setPairs_lookup_absent "id" fs _ hp]
    simp [lookupField, hcast]
  simp only [addNavigationItem, hmax, ratAdd_eq]
  refine ⟨hnewItem, hfresh, ?_⟩
  set newItem := objSpread
    [("id", JSVal.num (((ns.foldl max 0 : Int) : Rat) + 1))] (.obj fs)
    with hnewDef
  have hpush : pushElem (getField st.currentSettings "navigationItems") newItem =
      .arr ps (items ++ [newItem]) := by
    rw [hnav]
    rfl
  rw [hpush]
  have ho1 : JSVal.isObjLike (setField st.currentSettings "navigationItems"
      (.arr ps (items ++ [newItem]))) = true := by
    rw [isObjLike_setField]; exact ho
  have hn1 : getField (setField st.currentSettings "navigationItems"
      (.arr ps (items ++ [newItem]))) "navigationItems" =
      .arr ps (items ++ [newItem]) := getField_setField_self _ _ _ ho
  obtain ⟨hn2, ho2⟩ := saveSettingsAux_nav 2 t0 now
    { st with currentSettings := (setField st.currentSettings
        "navigationItems" (.arr ps (items ++ [newItem]))) }
    ps (items ++ [newItem]) ho1 hn1
  refine ⟨ho2, ps, items ++ [newItem], ns ++ [ns.foldl max 0 + 1], hn2, ?_, ?_⟩
  · unfold IntIdItems at *
    rw [List.map_append, List.map_append, hids]
    simp [hnewItem]
  · simp only [List.nodup_append, List.nodup_singleton, List.disjoint_singleton,
      true_and, and_true, hnd]
    exact hfresh

/-- Deleting (by any id) preserves the id invariant. -/
theorem deleteNavigationItem_inv (t0 now : Int) (st : ModelState)
    (idArg : JSVal) (hinv : NavInv st) :
    NavInv (deleteNavigationItem t0 now st idArg).2 := by
  obtain ⟨ho, ps, items, ns, hnav, hids, hnd⟩ := hinv
  cases hf : findItemIdx st idArg with
  | none => simpa [deleteNavigationItem, hf] using ⟨ho, ps, items, ns, hnav, hids, hnd⟩
  | some i =>
    simp only [deleteNavigationItem, hf]
    have hitems : navItems st = items := by simp [navItems, hnav, elemsOf]
    rw [hitems]
    have hset : setNavItems st (items.eraseIdx i) =
        { st with currentSettings := (setField st.currentSettings
            "navigationItems" (.arr ps (items.eraseIdx i))) } := by
      simp [setNavItems, hnav]
    rw [hset]
    have ho1 : JSVal.isObjLike (setField st.currentSettings "navigationItems"
        (.arr ps (items.eraseIdx i))) = true := by
      rw [isObjLike_setField]; exact ho
    have hn1 : getField (setField st.currentSettings "navigationItems"
        (.arr ps (items.eraseIdx i))) "navigationItems" =
        .arr ps (items.eraseIdx i) := getField_setField_self _ _ _ ho
    obtain ⟨hn2, ho2⟩ := saveSettingsAux_nav 2 t0 now
      { st with currentSettings := (setField st.currentSettings
          "navigationItems" (.arr ps (items.eraseIdx i))) }
      ps (items.eraseIdx i) ho1 hn1
    exact ⟨ho2, ps, items.eraseIdx i, ns.eraseIdx i, hn2,
      eraseIdx_map_ids items ns i hids, hnd.sublist (List.eraseIdx_sublist ns i)⟩

/-- Adding with an id-less payload preserves the id invariant. -/
theorem addNavigationItem_inv (t0 now : Int) (st : ModelState) (p : JSVal)
    (hp : PayloadOk p) (hinv : NavInv st) :
    NavInv (addNavigationItem t0 now st p).1 := by
  obtain ⟨fs, rfl, hfs⟩ := hp
  obtain ⟨ho, ps, items, ns, hnav, hids, hnd⟩ := hinv
  exact (addNavigationItem_spec t0 now st ps items ns fs ho hnav hids hnd hfs).2.2

/-- Any sequence of well-formed adds and deletes preserves the id
invariant. -/
theorem runNavOps_inv (t0 now : Int) :
    ∀ (ops : List NavOp) (st : ModelState), NavInv st →
      (∀ op ∈ ops, OpOk op) → NavInv (runNavOps t0 now ops st).1 := by
  intro ops
  induction ops with
  | nil => exact fun st h _ => h
  | cons op ops ih =>
    intro st hinv hops
    cases op with
    | addOp p =>
      simp only [runNavOps]
      have hop : PayloadOk p := hops (NavOp.addOp p) (List.mem_cons_self _ _)
      exact ih _ (addNavigationItem_inv t0 now st p hop hinv)
        fun o ho => hops o (List.mem_cons_of_mem _ ho)
    | delOp idArg =>
      simp only [runNavOps]
      exact ih _ (deleteNavigationItem_inv t0 now st idArg hinv)
        fun o ho => hops o (List.mem_cons_of_mem _ ho)

/-- C7: for any fully structured document that validates and whose pretty
serialization parses back to itself, `importSettings (exportSettings st)` —
run from any importer state — returns true, installs a document that still
validates, and that document equals the original up to the refreshed
`timestamp` and `checksum` fields (it is exactly the re-stamped original). -/
theorem c7_import_export_roundtrip (t0 now : Int) (st st2 : ModelState)
    (hparse : jsonParse (exportSettings st) = some st.currentSettings)
    (hstruct : structuredB st.currentSettings = true)
    (hvalid : validateSettings st.currentSettings = true)
    (hnow : now ≠ 0) :
    (importSettings t0 now st2 (exportSettings st)).1 = true ∧
    validateSettings
      (importSettings t0 now st2 (exportSettings st)).2.currentSettings = true ∧
    (importSettings t0 now st2 (exportSettings st)).2.currentSettings =
      stampDoc now st.currentSettings := by
  have hs := hstruct
  simp only [structuredB, Bool.and_eq_true, decide_eq_true_eq] at hs
  obtain ⟨⟨⟨⟨⟨⟨⟨⟨⟨h1, h2⟩, h3⟩, h4⟩, h5⟩, h6⟩, h7⟩, h8⟩, h9⟩, h10⟩ := hs
  have htg : JSVal.truthy (getField st.currentSettings "toolGroups") = true :=
    truthy_of_isArr _ h7
  have hna : JSVal.truthy (getField st.currentSettings "navigationItems") = true :=
    truthy_of_isArr _ h6
  have hse : JSVal.truthy (getField st.currentSettings "search") = true := by
    simp only [searchOkB, Bool.and_eq_true, decide_eq_true_eq] at h9
    exact h9.1.1.1
  have hla : JSVal.truthy (getField st.currentSettings "layout") = true := by
    simp only [layoutOkB, Bool.and_eq_true, decide_eq_true_eq] at h8
    exact h8.1.1.1.1
  have hmain : importSettings t0 now st2 (exportSettings st) =
      (true, (saveSettingsAux 2 t0 now
        (ensureSettingsStructure t0 now
          { st2 with currentSettings := st.currentSettings })).2) := by
    simp only [importSettings, hparse, htg, hna, hse, hla, Bool.not_true,
      Bool.false_eq_true, if_false, hvalid, if_true]
  rw [hmain, ensureSettingsStructure_noop t0 now
    { st2 with currentSettings := st.currentSettings } hstruct]
  rw [show (2 : Nat) = 1 + 1 from rfl, saveSettingsAux_structured_eq 1 t0 now
    { st2 with currentSettings := st.currentSettings } hstruct hvalid hnow]
  refine ⟨rfl, ?_, rfl⟩
  show validateSettings (stampDoc now st.currentSettings) = true
  rw [validate_stampDoc]
  exact hvalid

/-- C7 witness: the round-trip theorem at the concrete repaired example
state (export it, then import into a fresh model): import returns true and
installs exactly the re-stamped original document. -/
theorem c7_import_export_roundtrip_witness :
    (importSettings 5 7 exState (exportSettings exStructState)).1 = true ∧
    (importSettings 5 7 exState
      (exportSettings exStructState)).2.currentSettings =
      stampDoc 7 exStructState.currentSettings :=
  have h := c7_import_export_roundtrip 5 7 exStructState exState (by decide)
    (by decide) (by decide) (by decide)
  ⟨h.1, h.2.2⟩

/-- C3 (amended): starting from a document with integer, pairwise-distinct
item ids, a freshly created item (payload without its own `id`) gets id
`max(existing ids, 0) + 1`, which is distinct from every existing id, and
any sequence of such adds and deletes keeps the ids integer and pairwise
distinct.  (The original claim's monotonicity and never-reuse fail: deleting
the maximal item makes the very next assigned id repeat — see the
counterexample.) -/
theorem c3_id_assignment (t0 now : Int) (st : ModelState)
    (ps : List (String × JSVal)) (items : List JSVal) (ns : List Int)
    (fs : List (String × JSVal)) (ops : List NavOp)
    (ho : JSVal.isObjLike st.currentSettings = true)
    (hnav : getField st.currentSettings "navigationItems" = .arr ps items)
    (hids : IntIdItems items ns) (hnd : ns.Nodup)
    (hp : "id" ∉ fs.map Prod.fst) (hops : ∀ op ∈ ops, OpOk op) :
    getField (addNavigationItem t0 now st (.obj fs)).2 "id" =
      intIdVal (ns.foldl max 0 + 1) ∧
    (ns.foldl max 0 + 1) ∉ ns ∧
    NavInv (runNavOps t0 now ops st).1 := by
  obtain ⟨h1, h2, _⟩ := addNavigationItem_spec t0 now st ps items ns fs ho hnav
    hids hnd hp
  exact ⟨h1, h2, runNavOps_inv t0 now ops st ⟨ho, ps, items, ns, hnav, hids, hnd⟩ hops⟩

/-- C3 witness: the amended theorem at a concrete one-item state with a
concrete id-less payload and a concrete mutation sequence. -/
theorem c3_id_assignment_witness :
    getField (addNavigationItem 5 7 exDupState
      (.obj [("name", JSVal.str "t"), ("url", JSVal.str "https://t.example/")])).2
      "id" = intIdVal 2 ∧
    NavInv (runNavOps 5 7 [.delOp (.num 1)] exDupState).1 := by
  have h := c3_id_assignment 5 7 exDupState [] [exItem1] [1]
    [("name", JSVal.str "t"), ("url", JSVal.str "https://t.example/")]
    [.delOp (.num 1)] (by decide) (by decide)
    (by unfold IntIdItems; decide) (by decide)
    (by decide) (fun op hop => by
      simp only [List.mem_singleton] at hop
      rw [hop]
      exact trivial)
  exact ⟨h.1, h.2.2⟩

/-- C3 counterexample: starting from a valid document with no items, adding
an item assigns id 1; after deleting it, the next add assigns id 1 again —
freshly assigned ids are not monotonically increasing and an id is reused
after its item is deleted. -/
theorem c3_id_reuse_counterexample :
    validateSettings exState.currentSettings = true ∧
    (runNavOps 5 7 [.addOp exPayload, .delOp (.num 1), .addOp exPayload]
      exState).2 = [.num 1, .num 1] := by
  decide

end NavHome
